import Mathlib

/-!
Verification development for the PartSelect chat-agent repository.

We shallowly embed the matching/scoring engine (`SearchService` of the
`partselect-chat` backend), the string normalizers of the two sibling
implementations, the four capability tools, and the Think - Act - Observe -
Finalize orchestration loop (`BaseAgent.processQuery` together with the
`PartSelectAgent` subclass), and prove the spec claims C1 - C10 about them.

Modelling conventions:
  * JavaScript strings are Lean `String`s; the catalog data is ASCII, so the
    ASCII `Char.toLower`/`Char.toUpper` coincide with the JS case folds used.
  * JS `a.includes(b)` is `strIncludes a b`; JS `s.split(' ')` is
    `splitOnSpace` (empty fragments are kept, exactly as in JS).
  * Prices are modelled in integer cents (`45.99` becomes `4599`).
  * JS truthiness on optional numbers (`params.limit || 10`) is `jsOrNat`;
    on optional strings it is `jsOrStr` (both `undefined` and `""` are falsy).
  * Code that can raise is translated into `Except`; a `try`/`catch` becomes a
    `match` on the `Except` value.  Total functions are translated as plain
    functions, which simultaneously witnesses that they never throw.
  * `Date` timestamps on log entries are omitted: every claim in scope either
    ignores them or explicitly excludes them.
  * Contractions in the source string literals are expanded (for example the
    source text with an apostrophe is written without one); no claim inspects
    those characters.
-/

/-! ## JavaScript string primitives -/

/-- ASCII lower-casing of a string, modelling JS `toLowerCase` on the ASCII
catalog data. -/
def jsToLower (s : String) : String := ⟨s.data.map Char.toLower⟩

/-- ASCII upper-casing of a string, modelling JS `toUpperCase`. -/
def jsToUpper (s : String) : String := ⟨s.data.map Char.toUpper⟩

/-- Does the character list `hay` start with `needle`?  Models the anchored
step of JS `String.prototype.includes`. -/
def strStarts : List Char → List Char → Bool
  | _, [] => true
  | [], _ :: _ => false
  | c :: cs, d :: ds => c == d && strStarts cs ds

/-- JS `hay.includes(needle)` on the underlying character lists. -/
def strInclAux : List Char → List Char → Bool
  | [], needle => needle.isEmpty
  | c :: cs, needle => strStarts (c :: cs) needle || strInclAux cs needle

/-- JS `hay.includes(needle)`. -/
def strIncludes (hay needle : String) : Bool := strInclAux hay.data needle.data

/-- Case-insensitive string equality: `a.toLowerCase() === b.toLowerCase()`. -/
def lowerEq (a b : String) : Bool := jsToLower a == jsToLower b

/-- JS `s.split(' ')` worker: splits at every single space, keeping empty
fragments. -/
def splitOnSpaceAux : List Char → List Char → List (List Char)
  | acc, [] => [acc.reverse]
  | acc, c :: cs =>
    if c == ' ' then acc.reverse :: splitOnSpaceAux [] cs
    else splitOnSpaceAux (c :: acc) cs

/-- JS `s.split(' ')`. -/
def splitOnSpace (s : String) : List String :=
  (splitOnSpaceAux [] s.data).map fun l => ⟨l⟩

/-- JS `n || d` for an optional number (`undefined` and `0` are falsy). -/
def jsOrNat (o : Option Nat) (d : Nat) : Nat :=
  match o with
  | none => d
  | some 0 => d
  | some n => n

/-- JS `s || d` for an optional string (`undefined` and `""` are falsy). -/
def jsOrStr (o : Option String) (d : String) : String :=
  match o with
  | none => d
  | some s => if s.isEmpty then d else s

/-- JS truthiness test for an optional string parameter (`!p`). -/
def jsFalsyS (o : Option String) : Bool :=
  match o with
  | none => true
  | some s => s.isEmpty

/-- JS string interpolation of a possibly-undefined value (prints the literal
text `undefined` for a missing field, as JS does). -/
def jsShow (o : Option String) : String := o.getD "undefined"

/-- Removes one trailing decimal digit, modelling the JS replace with the
regex "one digit at end of string" in `SearchService.checkCompatibility`. -/
def stripTrailingDigit (s : String) : String :=
  match s.data.reverse with
  | c :: rest => if c.isDigit then ⟨rest.reverse⟩ else s
  | [] => s

/-- Removes a trailing dash-plus-digits suffix, modelling the JS
`model.replace` with the regex "dash, one or more digits, end of string"
in the `src/backend` `SearchService`. -/
def stripDashDigits (s : String) : String :=
  let r := s.data.reverse
  let ds := r.takeWhile Char.isDigit
  match r.drop ds.length with
  | '-' :: rest => if ds.isEmpty then s else ⟨rest.reverse⟩
  | _ => s

/-- Prints a price stored in cents the way the catalog prices render in JS
(every catalog price has a non-zero cent part). -/
def formatPrice (cents : Nat) : String :=
  let r := cents % 100
  toString (cents / 100) ++ "." ++ (if r < 10 then "0" ++ toString r else toString r)

/-! ## Normalizers

`normalizeString` and `normalizeModel` are the private helpers of the
`src/backend` `SearchService`; `standardizePartNumber` and
`standardizeModelNumber` are the helpers of `PartSelectToolRegistry`. -/

/-- `normalizeString`: JS lower-case, then delete every character outside
the lower-case alphanumerics. -/
def normalizeString (s : String) : String :=
  ⟨(s.data.map Char.toLower).filter fun c => c.isLower || c.isDigit⟩

/-- `normalizeModel`: drop a trailing dash-plus-digits suffix, then
`normalizeString`. -/
def normalizeModel (s : String) : String :=
  normalizeString (stripDashDigits s)

/-- `standardizePartNumber`: JS upper-case, then delete every character
outside the upper-case alphanumerics (the final JS `trim` is the identity
on the already-stripped string and is folded in). -/
def standardizePartNumber (s : String) : String :=
  ⟨(s.data.map Char.toUpper).filter fun c => c.isUpper || c.isDigit⟩

/-- `standardizeModelNumber`: JS upper-case, then delete every character
outside the upper-case alphanumerics, as for `standardizePartNumber`. -/
def standardizeModelNumber (s : String) : String :=
  ⟨(s.data.map Char.toUpper).filter fun c => c.isUpper || c.isDigit⟩

/-! ## Data model -/

inductive Category where
  | refrigerator
  | dishwasher
deriving DecidableEq, Repr

def categoryStr : Category → String
  | .refrigerator => "refrigerator"
  | .dishwasher => "dishwasher"

inductive Availability where
  | inStock
  | outOfStock
  | backordered
deriving DecidableEq, Repr

def availabilityStr : Availability → String
  | .inStock => "in-stock"
  | .outOfStock => "out-of-stock"
  | .backordered => "backordered"

inductive Difficulty where
  | easy
  | medium
  | hard
deriving DecidableEq, Repr

def difficultyStr : Difficulty → String
  | .easy => "easy"
  | .medium => "medium"
  | .hard => "hard"

structure InstallationStep where
  step : Nat
  title : String
  description : String
  warning : Option String := none
deriving DecidableEq, Repr

structure Product where
  id : String
  partNumber : String
  name : String
  description : String
  category : Category
  brand : String
  compatibleModels : List String
  priceCents : Nat
  availability : Availability
  installationDifficulty : Difficulty
  estimatedInstallTime : Nat
  requiredTools : List String
  safetyWarnings : List String
  installationSteps : Option (List InstallationStep) := none
deriving DecidableEq, Repr

structure DiagnosticStep where
  step : Nat
  description : String
  expectedResult : String
  nextStepIfTrue : Option Nat := none
  nextStepIfFalse : Option Nat := none
  recommendedAction : Option String := none
deriving DecidableEq, Repr

structure TroubleshootingSymptom where
  id : String
  description : String
  category : Category
  commonCauses : List String
  diagnosticSteps : List DiagnosticStep
  recommendedParts : List String := []
deriving DecidableEq, Repr

structure ProductSearchParams where
  query : Option String := none
  partNumber : Option String := none
  category : Option Category := none
  brand : Option String := none
  priceRange : Option (Nat × Nat) := none
  availability : Option Availability := none
  limit : Option Nat := none
  offset : Option Nat := none
deriving DecidableEq, Repr

structure SearchResult where
  products : List Product
  totalCount : Nat
  searchTerms : List String
  suggestions : Option (List String) := none
deriving DecidableEq, Repr

structure CompatibilityCheck where
  partNumber : String
  modelNumber : String
  isCompatible : Bool
  confidence : ℚ
  reason : String
  alternativeParts : Option (List Product) := none
deriving DecidableEq, Repr

structure InstallationData where
  partNumber : String
  partName : String
  difficulty : Difficulty
  estimatedTime : Nat
  requiredTools : List String
  safetyWarnings : List String
  steps : List InstallationStep
  additionalNotes : List String
deriving DecidableEq, Repr

structure TroubleshootingResult where
  symptom : TroubleshootingSymptom
  suggestedSteps : List DiagnosticStep
  recommendedParts : List Product
  shouldContactProfessional : Bool
  reason : Option String
deriving DecidableEq, Repr

/-! ## SearchService (partselect-chat backend variant) -/

namespace SearchService

/-- `calculateRelevanceScore`: additive integer relevance score of one catalog
product for the given search parameters (weight table from the source). -/
def calculateRelevanceScore (product : Product) (params : ProductSearchParams) : Nat :=
  let partScore :=
    match params.partNumber with
    | some pn =>
      (if lowerEq product.partNumber pn then 1000 else 0) +
      (if strIncludes (jsToLower product.partNumber) (jsToLower pn) then 500 else 0)
    | none => 0
  let queryScore :=
    match params.query with
    | some q =>
      let queryTerms := splitOnSpace (jsToLower q)
      100 * (queryTerms.filter fun t => strIncludes (jsToLower product.name) t).length +
      50 * (queryTerms.filter fun t => strIncludes (jsToLower product.description) t).length
    | none => 0
  let brandScore :=
    match params.brand with
    | some b => if strIncludes (jsToLower product.brand) (jsToLower b) then 200 else 0
    | none => 0
  let availScore :=
    match product.availability with
    | .inStock => 100
    | .backordered => 25
    | .outOfStock => 0
  let diffScore :=
    match product.installationDifficulty with
    | .easy => 10
    | .medium => 5
    | .hard => 0
  partScore + queryScore + brandScore + availScore + diffScore

/-- The part-number block of the weight table: 1000 for an exact match plus
500 for a substring match (an exact match is also a substring match, so an
exact hit scores 1500 from this block). -/
def partNumberScore (product : Product) (params : ProductSearchParams) : Nat :=
  match params.partNumber with
  | some pn =>
    (if lowerEq product.partNumber pn then 1000 else 0) +
    (if strIncludes (jsToLower product.partNumber) (jsToLower pn) then 500 else 0)
  | none => 0

/-- The free-text block of the weight table: 100 per query token matching the
name, 50 per query token matching the description. -/
def queryScore (product : Product) (params : ProductSearchParams) : Nat :=
  match params.query with
  | some q =>
    let queryTerms := splitOnSpace (jsToLower q)
    100 * (queryTerms.filter fun t => strIncludes (jsToLower product.name) t).length +
    50 * (queryTerms.filter fun t => strIncludes (jsToLower product.description) t).length
  | none => 0

/-- The brand bonus of the weight table: 200 for a case-insensitive brand
substring match. -/
def brandScore (product : Product) (params : ProductSearchParams) : Nat :=
  match params.brand with
  | some b => if strIncludes (jsToLower product.brand) (jsToLower b) then 200 else 0
  | none => 0

/-- The availability bonus of the weight table: 100 / 25 / 0. -/
def availabilityBonus (product : Product) : Nat :=
  match product.availability with
  | .inStock => 100
  | .backordered => 25
  | .outOfStock => 0

/-- The installation-difficulty bonus of the weight table: 10 / 5 / 0. -/
def difficultyBonus (product : Product) : Nat :=
  match product.installationDifficulty with
  | .easy => 10
  | .medium => 5
  | .hard => 0

/-- One step of the stable descending sort: the new element goes in front of
the first element whose score is not larger (JS `Array.prototype.sort` with
comparator `(a, b) => b.score - a.score` is stable per the ES2019 spec, and
this insertion realizes exactly that stable order). -/
def insertDesc (score : Product → Nat) (x : Product) : List Product → List Product
  | [] => [x]
  | y :: ys => if score y ≤ score x then x :: y :: ys else y :: insertDesc score x ys

/-- Stable sort by descending score. -/
def sortDesc (score : Product → Nat) : List Product → List Product
  | [] => []
  | x :: xs => insertDesc score x (sortDesc score xs)

/-- `scoreAndSortResults`: annotate with scores, stably sort descending. -/
def scoreAndSortResults (products : List Product) (params : ProductSearchParams) :
    List Product :=
  sortDesc (fun p => calculateRelevanceScore p params) products

/-- `generateSuggestions`: up to three fixed suggestion strings for an empty
result set. -/
def generateSuggestions (params : ProductSearchParams) : List String :=
  let s1 :=
    match params.partNumber with
    | some pn =>
      ["Try searching without the full part number: \"" ++
        (⟨pn.data.take (pn.data.length - 2)⟩ : String) ++ "\"",
       "Check if the part number is correct and complete",
       "Try searching by product name instead of part number"]
    | none => []
  let s2 :=
    match params.query with
    | some _ =>
      ["Try using different keywords or synonyms",
       "Search by brand name (Whirlpool, GE, Frigidaire, etc.)",
       "Include the appliance type (refrigerator or dishwasher)"]
    | none => []
  let s3 :=
    match params.brand, params.category with
    | some b, some c =>
      ["Browse all " ++ categoryStr c ++ " parts",
       "Search for " ++ b ++ " parts without other filters"]
    | _, _ => []
  let s4 :=
    ["Try browsing by category (refrigerator or dishwasher)",
     "Contact our support team for assistance finding the right part"]
  (s1 ++ s2 ++ s3 ++ s4).take 3

/-- The score / paginate / suggest tail of `searchProducts`: stable-sort the
remaining candidates by relevance, slice out the requested page, and attach
suggestions when nothing matched. -/
def paginateResults (results : List Product) (terms : List String)
    (params : ProductSearchParams) : SearchResult :=
  let results := scoreAndSortResults results params
  let offset := jsOrNat params.offset 0
  let limit := jsOrNat params.limit 10
  { products := (results.drop offset).take limit
    totalCount := results.length
    searchTerms := terms
    suggestions := if results.length == 0 then some (generateSuggestions params) else none }

/-- The filter chain of `searchProducts`, entered after the
exact-part-number short circuit did not fire. -/
def searchFiltered (results : List Product) (terms : List String)
    (params : ProductSearchParams) : SearchResult :=
  let results :=
    match params.category with
    | some c => results.filter fun p => p.category == c
    | none => results
  let terms :=
    match params.category with
    | some c => terms ++ ["category:" ++ categoryStr c]
    | none => terms
  let results :=
    match params.brand with
    | some b => results.filter fun p => strIncludes (jsToLower p.brand) (jsToLower b)
    | none => results
  let terms :=
    match params.brand with
    | some b => terms ++ ["brand:" ++ b]
    | none => terms
  let results :=
    match params.priceRange with
    | some (mn, mx) => results.filter fun p => mn ≤ p.priceCents && p.priceCents ≤ mx
    | none => results
  let terms :=
    match params.priceRange with
    | some (mn, mx) => terms ++ ["price:" ++ toString mn ++ "-" ++ toString mx]
    | none => terms
  let results :=
    match params.availability with
    | some a => results.filter fun p => p.availability == a
    | none => results
  let terms :=
    match params.availability with
    | some a => terms ++ ["availability:" ++ availabilityStr a]
    | none => terms
  let results :=
    match params.query with
    | some q =>
      let queryTerms := splitOnSpace (jsToLower q)
      results.filter fun p =>
        queryTerms.any fun t =>
          strIncludes (jsToLower (p.name ++ " " ++ p.description)) t
    | none => results
  let terms :=
    match params.query with
    | some q => terms ++ ["query:" ++ q]
    | none => terms
  paginateResults results terms params

/-- `searchProducts` of the partselect-chat `SearchService`: exact part-number
short circuit, then substring part-number filtering and the remaining
filters. -/
def searchProducts (catalog : List Product) (params : ProductSearchParams) :
    SearchResult :=
  match params.partNumber with
  | some pn =>
    let exactMatch := catalog.filter fun p => lowerEq p.partNumber pn
    if 0 < exactMatch.length then
      { products := exactMatch.take (jsOrNat params.limit 10)
        totalCount := exactMatch.length
        searchTerms := ["part:" ++ pn]
        suggestions := none }
    else
      searchFiltered
        (catalog.filter fun p => strIncludes (jsToLower p.partNumber) (jsToLower pn))
        ["part:" ++ pn] params
  | none => searchFiltered catalog [] params

/-- The trailing-digit-tolerant family match of `checkCompatibility`: strip one
trailing digit from each side, then case-insensitive substring in either
direction. -/
def familyMatch (model input : String) : Bool :=
  let modelBase := stripTrailingDigit model
  let inputBase := stripTrailingDigit input
  strIncludes (jsToLower modelBase) (jsToLower inputBase) ||
  strIncludes (jsToLower inputBase) (jsToLower modelBase)

/-- The alternative-part predicate of `checkCompatibility`: some compatible
model matches the queried model by case-insensitive substring in either
direction. -/
def altModelMatch (p : Product) (modelNumber : String) : Bool :=
  p.compatibleModels.any fun m =>
    strIncludes (jsToLower m) (jsToLower modelNumber) ||
    strIncludes (jsToLower modelNumber) (jsToLower m)

/-- `checkCompatibility` of the partselect-chat `SearchService`. -/
def checkCompatibility (catalog : List Product) (partNumber modelNumber : String) :
    CompatibilityCheck :=
  match catalog.find? (fun p => lowerEq p.partNumber partNumber) with
  | none =>
    { partNumber, modelNumber
      isCompatible := false
      confidence := 0
      reason := "Part number not found in our database"
      alternativeParts := some [] }
  | some part =>
    if part.compatibleModels.any (fun m => lowerEq m modelNumber) then
      { partNumber, modelNumber
        isCompatible := true
        confidence := 1
        reason := "Part " ++ partNumber ++ " is confirmed compatible with model " ++
          modelNumber
        alternativeParts := none }
    else if part.compatibleModels.any (fun m => familyMatch m modelNumber) then
      { partNumber, modelNumber
        isCompatible := true
        confidence := 8/10
        reason := "Part " ++ partNumber ++ " appears compatible with model " ++
          modelNumber ++ " based on model family matching"
        alternativeParts := none }
    else
      let alternativeParts := catalog.filter fun p =>
        altModelMatch p modelNumber && p.category == part.category
      { partNumber, modelNumber
        isCompatible := false
        confidence := 0
        reason := "Part " ++ partNumber ++ " is not compatible with model " ++
          modelNumber
        alternativeParts := some (alternativeParts.take 3) }

/-- `getProductByPartNumber`. -/
def getProductByPartNumber (catalog : List Product) (partNumber : String) :
    Option Product :=
  catalog.find? fun p => lowerEq p.partNumber partNumber

/-- The fixed trailer of every installation-instruction payload. -/
def additionalNotesList : List String :=
  ["Always read all instructions before beginning installation",
   "Ensure you have all required tools before starting",
   "If you encounter any issues, consult a professional technician",
   "Keep all safety warnings in mind throughout the installation process"]

/-- `getInstallationInstructions`: `null` only when the part is unknown;
missing `installationSteps` become the empty list. -/
def getInstallationInstructions (catalog : List Product) (partNumber : String) :
    Option InstallationData :=
  (getProductByPartNumber catalog partNumber).map fun product =>
    { partNumber := product.partNumber
      partName := product.name
      difficulty := product.installationDifficulty
      estimatedTime := product.estimatedInstallTime
      requiredTools := product.requiredTools
      safetyWarnings := product.safetyWarnings
      steps := product.installationSteps.getD []
      additionalNotes := additionalNotesList }

/-- Professional-contact rule of `searchTroubleshooting`. -/
def shouldContactPro (s : TroubleshootingSymptom) : Bool :=
  5 < s.diagnosticSteps.length ||
  strIncludes (jsToLower s.description) "electrical"

/-- Professional-contact reason of `searchTroubleshooting`. -/
def proReason (s : TroubleshootingSymptom) : Option String :=
  if 5 < s.diagnosticSteps.length then
    some "Complex repair requiring multiple diagnostic steps"
  else if strIncludes (jsToLower s.description) "electrical" then
    some "Electrical repairs should be performed by qualified technicians"
  else none

/-- `searchTroubleshooting` of the partselect-chat `SearchService`. -/
def searchTroubleshooting (catalog : List Product)
    (symptoms : List TroubleshootingSymptom) (symptom : String)
    (category : Option Category) : List TroubleshootingResult :=
  let matching := symptoms.filter fun s =>
    let matchesCategory :=
      match category with
      | none => true
      | some c => s.category == c
    let matchesDescription :=
      strIncludes (jsToLower s.description) (jsToLower symptom) ||
      strIncludes (jsToLower symptom) (jsToLower s.description)
    let matchesCauses := s.commonCauses.any fun cause =>
      strIncludes (jsToLower cause) (jsToLower symptom) ||
      strIncludes (jsToLower symptom) (jsToLower cause)
    matchesCategory && (matchesDescription || matchesCauses)
  matching.map fun s =>
    { symptom := s
      suggestedSteps := s.diagnosticSteps
      recommendedParts := s.recommendedParts.filterMap (getProductByPartNumber catalog)
      shouldContactProfessional := shouldContactPro s
      reason := proReason s }

end SearchService

/-! ## The static catalog (`sampleProducts` and `troubleshootingSymptoms`) -/

def product1 : Product :=
  { id := "1"
    partNumber := "PS11752778"
    name := "Refrigerator Water Filter"
    description := "Genuine replacement water filter for various refrigerator models. Reduces chlorine, sediment, and other impurities for clean, fresh-tasting water and ice."
    category := .refrigerator
    brand := "Whirlpool"
    compatibleModels := ["WRF989SDAM", "WRF757SDEM", "WRF540CWHZ", "WRF535SWHZ"]
    priceCents := 4599
    availability := .inStock
    installationDifficulty := .easy
    estimatedInstallTime := 10
    requiredTools := ["None - tool-free installation"]
    safetyWarnings :=
      ["Turn off water supply before installation",
       "Flush filter for 3-5 minutes before use",
       "Replace every 6 months for optimal performance"]
    installationSteps := some
      [{ step := 1, title := "Locate the water filter"
         description := "Open the refrigerator door and locate the water filter compartment, typically in the upper right corner of the fresh food section." },
       { step := 2, title := "Remove the old filter"
         description := "Turn the old filter counterclockwise (left) until it releases. Pull the filter straight out."
         warning := some "Some water may spill during removal - have a towel ready." },
       { step := 3, title := "Prepare the new filter"
         description := "Remove all packaging from the new filter. Remove any protective caps or seals." },
       { step := 4, title := "Install the new filter"
         description := "Insert the new filter and turn clockwise (right) until it locks in place. You should feel it click into position." },
       { step := 5, title := "Reset the filter indicator"
         description := "Press and hold the water filter reset button for 3 seconds until the indicator light turns green or stops blinking." },
       { step := 6, title := "Flush the system"
         description := "Run water through the dispenser for 3-5 minutes to flush out any air and activate the filter."
         warning := some "Initial water may appear cloudy - this is normal and will clear after flushing." }] }

def product2 : Product :=
  { id := "2"
    partNumber := "WPW10348269"
    name := "Dishwasher Wash Pump Motor"
    description := "Replacement wash pump motor assembly for Whirlpool and KitchenAid dishwashers. Essential component that circulates water during wash cycles."
    category := .dishwasher
    brand := "Whirlpool"
    compatibleModels := ["WDT780SAEM1", "WDT780PAEM1", "WDT750SAHZ0", "KDTM404ESS0"]
    priceCents := 18999
    availability := .inStock
    installationDifficulty := .hard
    estimatedInstallTime := 90
    requiredTools :=
      ["Phillips head screwdriver", "Flathead screwdriver", "Socket wrench set",
       "Pliers", "Towels"]
    safetyWarnings :=
      ["Disconnect power and water supply before beginning",
       "Drain all water from dishwasher",
       "Wear safety glasses when working with springs",
       "This repair requires removing the dishwasher from cabinet"]
    installationSteps := some
      [{ step := 1, title := "Disconnect utilities"
         description := "Turn off power at circuit breaker and shut off water supply valve under sink." },
       { step := 2, title := "Remove dishwasher"
         description := "Remove screws securing dishwasher to countertop and carefully slide unit out of cabinet opening." },
       { step := 3, title := "Access pump motor"
         description := "Turn dishwasher on its back and remove the bottom access panel to expose the pump motor assembly." },
       { step := 4, title := "Disconnect electrical connections"
         description := "Carefully disconnect wire harnesses connected to the pump motor, noting their positions." },
       { step := 5, title := "Remove old pump motor"
         description := "Remove mounting bolts and carefully lift out the old pump motor assembly." },
       { step := 6, title := "Install new pump motor"
         description := "Position new pump motor and secure with mounting bolts. Reconnect all electrical connections." },
       { step := 7, title := "Reassemble and test"
         description := "Reinstall access panel, slide dishwasher back into place, reconnect utilities, and run a test cycle." }] }

def product3 : Product :=
  { id := "3"
    partNumber := "W10873791"
    name := "Ice Maker Assembly"
    description := "Complete ice maker assembly for Whirlpool refrigerators. Includes ice maker module, wire harness, and mounting hardware."
    category := .refrigerator
    brand := "Whirlpool"
    compatibleModels := ["WRF989SDAM", "WRF767SDHZ", "WRF555SDFZ", "WRS325SDHZ"]
    priceCents := 23499
    availability := .inStock
    installationDifficulty := .medium
    estimatedInstallTime := 45
    requiredTools :=
      ["Phillips head screwdriver", "Flathead screwdriver", "1/4 inch nut driver"]
    safetyWarnings :=
      ["Unplug refrigerator before starting repair",
       "Turn off water supply to ice maker",
       "Allow ice maker to reach room temperature before handling"] }

def product4 : Product :=
  { id := "4"
    partNumber := "W10190965"
    name := "Ice Maker Water Inlet Valve"
    description := "Water inlet valve that controls water flow to the ice maker. Common replacement part when ice maker stops producing ice."
    category := .refrigerator
    brand := "Whirlpool"
    compatibleModels := ["WRF989SDAM", "WRF767SDHZ", "WRF555SDFZ", "WRS325SDHZ"]
    priceCents := 6799
    availability := .inStock
    installationDifficulty := .medium
    estimatedInstallTime := 30
    requiredTools := ["Adjustable wrench", "Phillips head screwdriver", "Towels"]
    safetyWarnings :=
      ["Turn off water supply before removal", "Unplug refrigerator",
       "Have towels ready for water spillage"] }

def product5 : Product :=
  { id := "5"
    partNumber := "W10312695"
    name := "Refrigerator Door Seal"
    description := "Door gasket seal for refrigerator fresh food compartment. Maintains proper temperature and humidity levels."
    category := .refrigerator
    brand := "Whirlpool"
    compatibleModels := ["WRF989SDAM", "WRF767SDHZ", "WRF540CWHZ"]
    priceCents := 8999
    availability := .inStock
    installationDifficulty := .medium
    estimatedInstallTime := 60
    requiredTools := ["Phillips head screwdriver", "Hair dryer"]
    safetyWarnings :=
      ["Clean door surface before installation",
       "Use hair dryer to soften gasket for easier installation"] }

def product6 : Product :=
  { id := "6"
    partNumber := "W10190929"
    name := "Evaporator Fan Motor"
    description := "Refrigerator evaporator fan motor that circulates cold air throughout the fresh food and freezer compartments."
    category := .refrigerator
    brand := "Whirlpool"
    compatibleModels := ["WRF989SDAM", "WRF767SDHZ", "WRF555SDFZ"]
    priceCents := 15699
    availability := .inStock
    installationDifficulty := .hard
    estimatedInstallTime := 75
    requiredTools := ["Phillips head screwdriver", "Socket wrench set", "Wire nuts"]
    safetyWarnings :=
      ["Unplug refrigerator", "Remove all food from freezer",
       "Allow defrost cycle to complete"] }

def product7 : Product :=
  { id := "7"
    partNumber := "WPW10082861"
    name := "Dishwasher Drain Pump"
    description := "Drain pump assembly that removes wastewater from the dishwasher during drain cycles."
    category := .dishwasher
    brand := "Whirlpool"
    compatibleModels := ["WDT780SAEM1", "WDT780PAEM1", "WDT750SAHZ0"]
    priceCents := 14299
    availability := .inStock
    installationDifficulty := .hard
    estimatedInstallTime := 60
    requiredTools := ["Phillips head screwdriver", "Pliers", "Socket wrench"]
    safetyWarnings :=
      ["Disconnect power and water", "Remove dishwasher from cabinet for access",
       "Drain all water before starting"] }

def product8 : Product :=
  { id := "8"
    partNumber := "W10300924"
    name := "Dishwasher Door Latch"
    description := "Door latch assembly that secures the dishwasher door and activates the door switch to allow operation."
    category := .dishwasher
    brand := "Whirlpool"
    compatibleModels := ["WDT780SAEM1", "WDT780PAEM1", "WDT750SAHZ0", "KDTM404ESS0"]
    priceCents := 7899
    availability := .inStock
    installationDifficulty := .medium
    estimatedInstallTime := 30
    requiredTools := ["Phillips head screwdriver", "Torx screwdriver set"]
    safetyWarnings :=
      ["Disconnect power before starting", "Test door operation after installation"] }

def product9 : Product :=
  { id := "9"
    partNumber := "WR49X10283"
    name := "GE Refrigerator Water Filter"
    description := "Genuine GE refrigerator water filter that reduces chlorine taste and odor, sediment, and other contaminants."
    category := .refrigerator
    brand := "GE"
    compatibleModels := ["GFE28HMKES", "GFE26JSMSS", "PFE28PBLTS"]
    priceCents := 5299
    availability := .inStock
    installationDifficulty := .easy
    estimatedInstallTime := 5
    requiredTools := ["None"]
    safetyWarnings := ["Replace every 6 months", "Flush new filter before use"] }

def product10 : Product :=
  { id := "10"
    partNumber := "5304505524"
    name := "Frigidaire Dishwasher Heating Element"
    description := "Heating element for Frigidaire dishwashers. Heats water during wash and dry cycles."
    category := .dishwasher
    brand := "Frigidaire"
    compatibleModels := ["FGID2466QF0A", "FGIP2468UF0A", "FFID2426TS0A"]
    priceCents := 6799
    availability := .backordered
    installationDifficulty := .medium
    estimatedInstallTime := 45
    requiredTools := ["Phillips head screwdriver", "Multimeter", "Wire nuts"]
    safetyWarnings :=
      ["Disconnect power before installation",
       "Test element with multimeter before installation",
       "Ensure proper electrical connections"] }

/-- The in-memory catalog, in source order. -/
def sampleProducts : List Product :=
  [product1, product2, product3, product4, product5,
   product6, product7, product8, product9, product10]

def symptomIceMaker : TroubleshootingSymptom :=
  { id := "ice-maker-not-working"
    description := "Ice maker not producing ice"
    category := .refrigerator
    commonCauses :=
      ["Water supply issue", "Faulty ice maker assembly",
       "Clogged water inlet valve", "Temperature too warm",
       "Electrical connection problem"]
    diagnosticSteps :=
      [{ step := 1
         description := "Check if the ice maker is turned on and the wire arm is down"
         expectedResult := "Ice maker should be in ON position"
         nextStepIfTrue := some 2
         recommendedAction := some "Turn on ice maker and lower wire arm" },
       { step := 2
         description := "Verify water supply - check if water dispenser works"
         expectedResult := "Water should flow from dispenser"
         nextStepIfTrue := some 3, nextStepIfFalse := some 4 },
       { step := 3
         description := "Listen for ice maker cycling sounds (motor running, water filling)"
         expectedResult := "Should hear cycling sounds every few hours"
         nextStepIfFalse := some 5
         recommendedAction := some "If no sounds, ice maker assembly may need replacement" },
       { step := 4
         description := "Check water filter and water line connections"
         expectedResult := "Filter should be properly installed, lines connected"
         nextStepIfTrue := some 2
         recommendedAction := some "Replace filter or check water line connections" },
       { step := 5
         description := "Check freezer temperature (should be 0-5 degrees F)"
         expectedResult := "Temperature should be within range"
         recommendedAction := some "Adjust temperature or check for cooling system issues" }]
    recommendedParts := ["W10873791", "W10190965", "PS11752778"] }

def symptomNotDraining : TroubleshootingSymptom :=
  { id := "dishwasher-not-draining"
    description := "Dishwasher not draining properly"
    category := .dishwasher
    commonCauses :=
      ["Clogged drain pump", "Blocked garbage disposal", "Kinked drain hose",
       "Faulty drain pump motor"]
    diagnosticSteps :=
      [{ step := 1
         description := "Check if garbage disposal is clear (if connected)"
         expectedResult := "Disposal should run freely without clogs"
         nextStepIfTrue := some 2
         recommendedAction := some "Clear garbage disposal and run it" },
       { step := 2
         description := "Inspect dishwasher filter at bottom of tub"
         expectedResult := "Filter should be clean and properly installed"
         nextStepIfTrue := some 3
         recommendedAction := some "Clean or replace dishwasher filter" },
       { step := 3
         description := "Listen for drain pump operation during drain cycle"
         expectedResult := "Should hear pump motor running"
         nextStepIfTrue := some 4, nextStepIfFalse := some 5 },
       { step := 4
         description := "Check drain hose under sink for kinks or clogs"
         expectedResult := "Hose should be straight and unobstructed"
         recommendedAction := some "Straighten hose or clear blockage" },
       { step := 5
         description := "Drain pump may be faulty"
         expectedResult := "Pump motor should run when activated"
         recommendedAction := some "Replace drain pump assembly" }]
    recommendedParts := ["WPW10082861"] }

def symptomTooWarm : TroubleshootingSymptom :=
  { id := "refrigerator-too-warm"
    description := "Refrigerator not cooling properly"
    category := .refrigerator
    commonCauses :=
      ["Dirty condenser coils", "Faulty evaporator fan", "Bad door seals",
       "Temperature control issues", "Blocked air vents"]
    diagnosticSteps :=
      [{ step := 1
         description := "Check temperature settings (should be 35-38 degrees F for fresh food)"
         expectedResult := "Temperature should be set correctly"
         nextStepIfTrue := some 2
         recommendedAction := some "Adjust temperature settings" },
       { step := 2
         description := "Check door seals for gaps or damage"
         expectedResult := "Doors should seal tightly with no gaps"
         nextStepIfTrue := some 3
         recommendedAction := some "Replace door gasket seals" },
       { step := 3
         description := "Listen for evaporator fan running in freezer"
         expectedResult := "Fan should run when compressor is running"
         nextStepIfTrue := some 4, nextStepIfFalse := some 5 },
       { step := 4
         description := "Clean condenser coils (usually on back or bottom)"
         expectedResult := "Coils should be free of dust and debris"
         recommendedAction := some "Clean coils with coil brush and vacuum" },
       { step := 5
         description := "Evaporator fan motor may need replacement"
         expectedResult := "Fan should run smoothly without noise"
         recommendedAction := some "Replace evaporator fan motor" }]
    recommendedParts := ["W10312695", "W10190929"] }

/-- The troubleshooting knowledge base, in source order. -/
def troubleshootingSymptoms : List TroubleshootingSymptom :=
  [symptomIceMaker, symptomNotDraining, symptomTooWarm]

/-! ## Capability tools (partselect-chat backend variants)

Each tool is a pure function of its validated parameters and the service
state; a tool-internal exception is caught by the tool itself and becomes a
`success := false` result. -/

/-- The structured `data` payload of a successful tool result.  Each
constructor lists exactly the fields the corresponding tool places on its
`data` object. -/
inductive ToolData where
  | search (summary : String) (products : List Product)
      (suggestions : Option (List String))
  | compat (summary : String) (recommendation : String)
  | install (summary : String) (instructions : InstallationData)
  | troubleshoot (summary : String) (diagnosticSteps : List DiagnosticStep)
      (recommendedParts : List Product) (shouldContact : Bool)
      (reason : Option String)
deriving DecidableEq, Repr

/-- JS property read `data.summary` (present on every tool payload). -/
def ToolData.summaryProp : ToolData → Option String
  | .search s _ _ => some s
  | .compat s _ => some s
  | .install s _ => some s
  | .troubleshoot s _ _ _ _ => some s

/-- JS property read `data.products` (only the search payload carries it). -/
def ToolData.productsProp : ToolData → Option (List Product)
  | .search _ ps _ => some ps
  | _ => none

/-- JS property read `data.suggestions`. -/
def ToolData.suggestionsProp : ToolData → Option (List String)
  | .search _ _ sg => sg
  | _ => none

/-- JS property read `data.recommendation`. -/
def ToolData.recommendationProp : ToolData → Option String
  | .compat _ r => some r
  | _ => none

/-- JS property read `data.recommendedParts`. -/
def ToolData.recommendedPartsProp : ToolData → Option (List Product)
  | .troubleshoot _ _ ps _ _ => some ps
  | _ => none

/-- JS property read `data.formattedInstructions`: no partselect-chat tool
payload defines this field (the `InstallationTool` returns `instructions`
instead), so the read always yields `undefined`. -/
def ToolData.formattedInstructionsProp : ToolData → Option String
  | _ => none

/-- JS property read `data.diagnosticGuide`: no partselect-chat tool payload
defines this field (the `TroubleshootingTool` returns `diagnosticSteps`),
so the read always yields `undefined`. -/
def ToolData.diagnosticGuideProp : ToolData → Option String
  | _ => none

/-- The `ToolResult` envelope (`metadata` echoes fields of `data` and is
omitted). -/
structure ToolResult where
  success : Bool
  data : Option ToolData := none
  error : Option String := none
deriving DecidableEq, Repr

/-- The immutable service state behind the tools: the catalog and the
troubleshooting knowledge base, both loaded once at startup. -/
structure ServiceState where
  products : List Product
  symptoms : List TroubleshootingSymptom
deriving DecidableEq, Repr

/-- `ProductSearchTool.generateSearchSummary`.  The `products[0]` reads in
the two non-empty branches throw in JS when pagination leaves the page
empty, hence the `Except`. -/
def generateSearchSummary (searchResult : SearchResult) : Except String String :=
  if searchResult.totalCount == 0 then
    match searchResult.suggestions with
    | some sg =>
      if 0 < sg.length then
        .ok ("No products found matching your search criteria. Try: " ++
          String.intercalate ", " sg)
      else
        .ok "No products found matching your search criteria. Try broadening your search terms."
    | none =>
      .ok "No products found matching your search criteria. Try broadening your search terms."
  else
    let description :=
      if 0 < searchResult.searchTerms.length then
        "for " ++ String.intercalate ", " searchResult.searchTerms
      else "in our database"
    match searchResult.products.head? with
    | none => .error "Cannot read properties of undefined (reading name)"
    | some product =>
      if searchResult.totalCount == 1 then
        .ok ("Found 1 product " ++ description ++ ": " ++ product.name ++
          " (" ++ product.partNumber ++ ").")
      else
        .ok ("Found " ++ toString searchResult.totalCount ++ " products " ++
          description ++ ". Top result is " ++ product.name ++ " (" ++
          product.partNumber ++ ").")

/-- `ProductSearchTool.execute` (no schema validation in this variant; the
`try`/`catch` converts the only possible exception into a failure result). -/
def productSearchExecute (st : ServiceState) (params : ProductSearchParams) :
    ToolResult :=
  let searchResult := SearchService.searchProducts st.products params
  match generateSearchSummary searchResult with
  | .error m => { success := false, error := some ("Search failed: " ++ m) }
  | .ok summary =>
    { success := true
      data := some (.search summary searchResult.products searchResult.suggestions) }

/-- `CompatibilityTool.generateCompatibilitySummary`. -/
def generateCompatibilitySummary (result : CompatibilityCheck) : String :=
  if result.isCompatible then
    let confidenceText := if 1 ≤ result.confidence then "confirmed" else "likely"
    "COMPATIBLE - Part " ++ result.partNumber ++ " is " ++ confidenceText ++
      " compatible with model " ++ result.modelNumber ++ ". " ++ result.reason
  else
    "NOT COMPATIBLE - Part " ++ result.partNumber ++
      " is not compatible with model " ++ result.modelNumber ++ ". " ++ result.reason

/-- `CompatibilityTool.generateRecommendation`. -/
def generateRecommendation (result : CompatibilityCheck) : String :=
  if result.isCompatible then
    "You can proceed with this part. Make sure to follow proper installation procedures and safety guidelines."
  else
    match result.alternativeParts with
    | some (p :: ps) =>
      "Consider these compatible alternatives: " ++
        String.intercalate ", "
          ((p :: ps).map fun q =>
            q.name ++ " (" ++ q.partNumber ++ ") - $" ++ formatPrice q.priceCents) ++
        "."
    | _ =>
      "No direct alternatives found. I recommend searching for compatible parts using your model number or contacting support for assistance."

/-- `CompatibilityTool.execute`. -/
def compatibilityExecute (st : ServiceState)
    (partNumber modelNumber : Option String) : ToolResult :=
  if jsFalsyS partNumber || jsFalsyS modelNumber then
    { success := false
      error := some "Missing required parameters: partNumber and modelNumber." }
  else
    let result :=
      SearchService.checkCompatibility st.products (partNumber.getD "")
        (modelNumber.getD "")
    { success := true
      data := some (.compat (generateCompatibilitySummary result)
        (generateRecommendation result)) }

/-- JS `Math.round(t / 60)` on a natural number of minutes. -/
def jsRoundDiv60 (t : Nat) : Nat := (2 * t + 60) / 120

/-- `InstallationTool.generateInstallationSummary`. -/
def generateInstallationSummary (data : InstallationData) : String :=
  let timeText :=
    if 60 < data.estimatedTime then
      toString (jsRoundDiv60 data.estimatedTime) ++ " hour" ++
        (if 120 < data.estimatedTime then "s" else "")
    else toString data.estimatedTime ++ " minutes"
  let n := data.requiredTools.length
  let toolText :=
    if n == 0 ||
        (n == 1 &&
          strIncludes (jsToLower (data.requiredTools.headD "")) "none") then
      "no tools required"
    else toString n ++ " tool" ++ (if 1 < n then "s" else "") ++ " needed"
  "Installation Guide for " ++ data.partName ++ ": Difficulty is " ++
    difficultyStr data.difficulty ++ ", estimated time is " ++ timeText ++
    ", and it requires " ++ toolText ++ " to complete " ++
    toString data.steps.length ++ " steps."

/-- `InstallationTool.execute`. -/
def installationExecute (st : ServiceState) (partNumber : Option String) :
    ToolResult :=
  if jsFalsyS partNumber then
    { success := false, error := some "Missing required parameter: partNumber." }
  else
    let pn := partNumber.getD ""
    match SearchService.getInstallationInstructions st.products pn with
    | none =>
      { success := false
        error := some ("Installation instructions not found for part " ++ pn ++
          ". Please verify the part number is correct.") }
    | some installationData =>
      { success := true
        data := some (.install (generateInstallationSummary installationData)
          installationData) }

/-- `TroubleshootingTool.generateTroubleshootingSummary`. -/
def generateTroubleshootingSummary (result : TroubleshootingResult) : String :=
  let base :=
    "Troubleshooting guidance for the symptom \"" ++
      result.symptom.description ++ "\"."
  let base :=
    if result.shouldContactProfessional then
      base ++ " A professional service is recommended due to: " ++
        jsShow result.reason ++ "."
    else base
  let base :=
    if 0 < result.recommendedParts.length then
      base ++ " Potentially needed parts include: " ++
        String.intercalate ", "
          (result.recommendedParts.map fun p =>
            p.name ++ " (" ++ p.partNumber ++ ")") ++ "."
    else base
  if 0 < result.suggestedSteps.length then
    base ++ " Follow the " ++ toString result.suggestedSteps.length ++
      " diagnostic steps to pinpoint the issue."
  else base

/-- `TroubleshootingTool.execute`. -/
def troubleshootingExecute (st : ServiceState) (symptom : Option String)
    (category : Option Category) : ToolResult :=
  if jsFalsyS symptom then
    { success := false, error := some "Missing required parameter: symptom." }
  else
    let sy := symptom.getD ""
    let results := SearchService.searchTroubleshooting st.products st.symptoms sy category
    match results.head? with
    | none =>
      { success := false
        error := some ("No troubleshooting information found for the symptom: \"" ++
          sy ++ "\".") }
    | some bestMatch =>
      { success := true
        data := some (.troubleshoot (generateTroubleshootingSummary bestMatch)
          bestMatch.suggestedSteps bestMatch.recommendedParts
          bestMatch.shouldContactProfessional bestMatch.reason) }

/-- A call to one of the four registered capabilities with its parameters. -/
inductive CapabilityCall where
  | productSearch (params : ProductSearchParams)
  | compatibilityCheck (partNumber modelNumber : Option String)
  | installationGuide (partNumber : Option String)
  | troubleshootingGuide (symptom : Option String) (category : Option Category)
deriving DecidableEq, Repr

/-- Invoking a capability, with the service state threaded explicitly.  The
returned state is the input state because none of the tool or service
methods assigns to any instance field: the translation makes the absence of
mutation part of the definition, so that idempotence is provable. -/
def invokeCapability (st : ServiceState) (c : CapabilityCall) :
    ToolResult × ServiceState :=
  match c with
  | .productSearch params => (productSearchExecute st params, st)
  | .compatibilityCheck pn mn => (compatibilityExecute st pn mn, st)
  | .installationGuide pn => (installationExecute st pn, st)
  | .troubleshootingGuide sy c => (troubleshootingExecute st sy c, st)

/-! ## Agent orchestration (BaseAgent plus PartSelectAgent)

`BaseAgent.processQuery` is modelled generically over an `AgentBehavior`
(the subclass hooks plus the registry/tool layer plus the LLM gateway, all of
which may raise); a raising call is an `Except.error` carrying the message
and the instance state at the moment of the throw, since the `catch` block
reads `this.reasoning` afterwards. -/

inductive StepType where
  | thought
  | action
  | observation
deriving DecidableEq, Repr

/-- The parameters object handed to a tool (each tool reads the keys it
knows; keys the agent never sets are `none`, that is JS `undefined`). -/
structure ToolCallArgs where
  query : Option String := none
  partNumber : Option String := none
  category : Option Category := none
  brand : Option String := none
  limit : Option Nat := none
  modelNumber : Option String := none
  symptom : Option String := none
deriving DecidableEq, Repr

/-- The same object viewed through the `ProductSearchParams` interface
(fields the agent never sets stay `undefined`). -/
def ToolCallArgs.toSearchParams (a : ToolCallArgs) : ProductSearchParams :=
  { query := a.query
    partNumber := a.partNumber
    category := a.category
    brand := a.brand
    limit := a.limit }

structure AgentAction where
  tool : String
  parameters : ToolCallArgs
  reasoning : String
deriving DecidableEq, Repr

/-- One entry of the turn-scoped reasoning log (`timestamp` omitted). -/
structure ReasoningStep where
  step : Nat
  type : StepType
  content : String
  tool : Option String := none
  parameters : Option ToolCallArgs := none
  result : Option ToolResult := none
deriving DecidableEq, Repr

structure AgentObservation where
  success : Bool
  result : Option ToolResult := none
  error : Option String := none
deriving DecidableEq, Repr

/-- The mutable instance state of the agent object: `reasoning` and
`currentIteration` live on `BaseAgent`, `hasExecutedAction` and
`actionResults` on `PartSelectAgent`.  All of it persists between turns
unless code explicitly resets it. -/
structure AgentState where
  reasoning : List ReasoningStep
  currentIteration : Nat
  hasExecutedAction : Bool
  actionResults : List AgentObservation
deriving DecidableEq, Repr

/-- The state of a freshly constructed agent. -/
def psInitialState : AgentState :=
  { reasoning := [], currentIteration := 0
    hasExecutedAction := false, actionResults := [] }

/-- `BaseAgent.think`: append a thought (step index is the new length). -/
def think (s : AgentState) (content : String) : AgentState :=
  { s with reasoning := s.reasoning ++
      [{ step := s.reasoning.length + 1, type := .thought, content }] }

/-- `BaseAgent.act`: append an action entry. -/
def act (s : AgentState) (a : AgentAction) : AgentState :=
  { s with reasoning := s.reasoning ++
      [{ step := s.reasoning.length + 1, type := .action, content := a.reasoning
         tool := some a.tool, parameters := some a.parameters }] }

/-- `BaseAgent.observe`: append an observation entry. -/
def observe (s : AgentState) (obs : AgentObservation) (toolName : String) :
    AgentState :=
  { s with reasoning := s.reasoning ++
      [{ step := s.reasoning.length + 1, type := .observation
         content :=
           if obs.success then "Tool " ++ toolName ++ " executed successfully"
           else "Tool " ++ toolName ++ " failed: " ++ jsShow obs.error
         result := obs.result, tool := some toolName }] }

/-- What `tool.execute` does for a given action: return a result, raise, or
the registry has no tool of that name. -/
inductive ExecOutcome where
  | returns (r : ToolResult)
  | throws (msg : String)
  | missing
deriving DecidableEq, Repr

/-- The subclass hooks and collaborators `BaseAgent.processQuery` calls. -/
structure AgentBehavior where
  genAction : AgentState →
    Except (String × AgentState) (Option AgentAction × AgentState)
  execTool : AgentAction → ExecOutcome
  shouldFin : AgentState → AgentObservation → Bool × AgentState
  genFinal : AgentState →
    Except (String × AgentState) ((String × List Product) × AgentState)

/-- `BaseAgent.executeAction`: appends the action entry, then converts a
missing tool or a raising `tool.execute` into a failed observation via its
own `try`/`catch` — it never lets an exception escape. -/
def executeAction (B : AgentBehavior) (s : AgentState) (a : AgentAction) :
    AgentObservation × AgentState :=
  let s := act s a
  match B.execTool a with
  | .missing =>
    ({ success := false, error := some ("Tool " ++ a.tool ++ " not found") }, s)
  | .throws m => ({ success := false, error := some m }, s)
  | .returns r => ({ success := true, result := some r }, s)

/-- The `while (currentIteration < maxIterations)` loop of
`BaseAgent.processQuery`; `maxIterations = 10` bounds the fuel. -/
def runLoop (B : AgentBehavior) :
    Nat → AgentState → Except (String × AgentState) AgentState
  | 0, s => .ok s
  | fuel + 1, s =>
    let s := { s with currentIteration := s.currentIteration + 1 }
    match B.genAction s with
    | .error e => .error e
    | .ok (none, s) => .ok s
    | .ok (some a, s) =>
      let os := executeAction B s a
      let s := observe os.2 os.1 a.tool
      match B.shouldFin s os.1 with
      | (true, s) => .ok s
      | (false, s) => runLoop B fuel s

/-- The complete response object a turn produces. -/
structure AgentResponse where
  response : String
  reasoning : List ReasoningStep
  products : Option (List Product) := none
  error : Option String := none
deriving DecidableEq, Repr

/-- `BaseAgent.generateErrorResponse`: the user-facing apology template. -/
def generateErrorResponse (msg : String) : String :=
  "I apologize, but I encountered an error while processing your request: " ++
  msg ++
  "\n\nPlease try again with a more specific question, or contact our support team if the issue persists. I can help you with:\n- Finding parts by part number or description\n- Checking compatibility between parts and appliance models  \n- Providing installation instructions\n- Troubleshooting common appliance issues\n\nWhat would you like assistance with?"

/-- The opening thought of every turn. -/
def initialThought (userMessage : String) : String :=
  "User query: \"" ++ userMessage ++
  "\". I need to analyze this request and determine the appropriate tools to use."

/-- The `try` block of `BaseAgent.processQuery`: reset the turn-scoped
`reasoning`/`currentIteration`, think, loop, finalize. -/
def processQueryCore (B : AgentBehavior) (userMessage : String) (s0 : AgentState) :
    Except (String × AgentState) ((String × List Product) × AgentState) :=
  let s := { s0 with reasoning := [], currentIteration := 0 }
  let s := think s (initialThought userMessage)
  match runLoop B 10 s with
  | .error e => .error e
  | .ok s => B.genFinal s

/-- `BaseAgent.processQuery`: the `try`/`catch` around `processQueryCore`.
The return type being a plain pair — not `Except` — is the model-level
statement that the method never throws to its caller. -/
def agentProcessQuery (B : AgentBehavior) (userMessage : String)
    (s0 : AgentState) : AgentResponse × AgentState :=
  match processQueryCore B userMessage s0 with
  | .ok ((resp, prods), s) =>
    ({ response := resp, reasoning := s.reasoning
       products := some prods, error := none }, s)
  | .error (e, s) =>
    ({ response := generateErrorResponse e, reasoning := s.reasoning
       products := none, error := some e }, s)

/-! ### PartSelectAgent -/

/-- JS property read `obs.result.products`: `ToolResult` objects carry
`success`/`data`/`error`/`metadata` but no `products` key, so the read in
`extractProducts` always yields `undefined`. -/
def ToolResult.productsProp (_ : ToolResult) : Option (List Product) := none

/-- JS property read `obs.result.product` (no such key either). -/
def ToolResult.productProp (_ : ToolResult) : Option Product := none

/-- JS property read `obs.result.recommendedParts` (no such key either). -/
def ToolResult.recommendedPartsProp (_ : ToolResult) : Option (List Product) :=
  none

/-- The deduplication pass of `BaseAgent.extractProducts` (keep the first
product seen for each non-empty part number). -/
def dedupeByPartNumber (l : List Product) : List Product :=
  l.foldl
    (fun acc p =>
      if !p.partNumber.isEmpty && acc.all (fun q => q.partNumber != p.partNumber)
      then acc ++ [p] else acc)
    []

/-- `BaseAgent.extractProducts` over the collected observations. -/
def extractProducts (observations : List AgentObservation) : List Product :=
  let collected := observations.foldl
    (fun acc obs =>
      if obs.success then
        match obs.result with
        | some tr =>
          match tr.productsProp with
          | some ps => acc ++ ps
          | none =>
            match tr.productProp with
            | some p => acc ++ [p]
            | none =>
              match tr.recommendedPartsProp with
              | some ps => acc ++ ps
              | none => acc
        | none => acc
      else acc)
    []
  dedupeByPartNumber collected

/-- One branch of the `analyzeUserIntent` switch in
`PartSelectAgent.generateAction`.  The regex/keyword classification itself
is pure string inspection with no effect on the orchestration invariants, so
the branch taken is the parameter of the model; each constructor carries
exactly the extracted values its branch uses. -/
inductive IntentDecision where
  | installWithPart (partNumber : String)
  | installSearch
  | compatBoth (partNumber modelNumber : String)
  | compatPartOnly (partNumber : String)
  | compatModelOnly
  | compatNeither
  | troubleshootIntent (category : Option Category)
  | productSearchIntent (partNumber : Option String) (category : Option Category)
      (brand : Option String)
  | generalHelp
  | generalFallback
deriving DecidableEq, Repr

/-- The `intent.type` string of each branch. -/
def intentTypeStr : IntentDecision → String
  | .installWithPart _ => "installation"
  | .installSearch => "installation"
  | .compatBoth _ _ => "compatibility"
  | .compatPartOnly _ => "compatibility"
  | .compatModelOnly => "compatibility"
  | .compatNeither => "compatibility"
  | .troubleshootIntent _ => "troubleshooting"
  | .productSearchIntent _ _ _ => "product_search"
  | .generalHelp => "general_help"
  | .generalFallback => "general"

/-- The action each non-`general_help` branch of the switch builds. -/
def psDecisionAction (dec : IntentDecision) (userMessage : String) :
    Option AgentAction :=
  match dec with
  | .installWithPart pn =>
    some { tool := "InstallationGuide"
           parameters := { partNumber := some pn }
           reasoning := "User is asking for installation instructions for part " ++
             pn ++ ". I will retrieve detailed installation steps." }
  | .installSearch =>
    some { tool := "ProductSearch"
           parameters := { query := some userMessage, limit := some 3 }
           reasoning := "User wants installation help but no specific part number provided. I need to find the relevant part first." }
  | .compatBoth pn mn =>
    some { tool := "CompatibilityCheck"
           parameters := { partNumber := some pn, modelNumber := some mn }
           reasoning := "User is asking about compatibility between part " ++ pn ++
             " and model " ++ mn ++ ". I will check their compatibility." }
  | .compatPartOnly pn =>
    some { tool := "ProductSearch"
           parameters := { partNumber := some pn, limit := some 1 }
           reasoning := "User provided part number for compatibility check but no model number. I need to get part details first." }
  | .compatModelOnly =>
    some { tool := "ProductSearch"
           parameters := { query := some userMessage, limit := some 5 }
           reasoning := "User provided model number but no part number. I need to find compatible parts for their model." }
  | .compatNeither =>
    some { tool := "ProductSearch"
           parameters := { query := some userMessage, limit := some 5 }
           reasoning := "User is asking about compatibility but specific details are unclear. I need to search for relevant parts." }
  | .troubleshootIntent cat =>
    some { tool := "TroubleshootingGuide"
           parameters := { symptom := some userMessage, category := cat }
           reasoning := "User is describing a problem: \"" ++ userMessage ++
             "\". I will provide diagnostic steps and part recommendations." }
  | .productSearchIntent pn cat b =>
    some { tool := "ProductSearch"
           parameters := { query := some userMessage, limit := some 5
                           partNumber := pn, category := cat, brand := b }
           reasoning := "User is looking for parts. I will search our database with the provided criteria." }
  | .generalHelp => none
  | .generalFallback =>
    some { tool := "ProductSearch"
           parameters := { query := some userMessage, limit := some 5 }
           reasoning := "Intent unclear, performing general search to find relevant parts or information." }

/-- `PartSelectAgent.generateAction`: short-circuit on the turn flag, think,
then either return `null` (general help, flag untouched) or set
`hasExecutedAction` and return the branch action. -/
def psGenerateAction (dec : IntentDecision) (userMessage : String)
    (s : AgentState) : Option AgentAction × AgentState :=
  if s.hasExecutedAction then (none, s)
  else
    let s := think s ("Analyzing user message: \"" ++ userMessage ++
      "\". Detected intent: " ++ intentTypeStr dec)
    match dec with
    | .generalHelp =>
      (none, think s "User is asking for general help. I will provide information about what I can assist with.")
    | _ => (psDecisionAction dec userMessage, { s with hasExecutedAction := true })

/-- The service instance the agent constructs at startup. -/
def psServiceState : ServiceState :=
  { products := sampleProducts, symptoms := troubleshootingSymptoms }

/-- The registry dispatch for the four registered tools.  None of the four
tools can raise (each wraps its body in its own `try`/`catch`), so every
known name maps to `.returns`. -/
def psExecTool (a : AgentAction) : ExecOutcome :=
  if a.tool == "ProductSearch" then
    .returns (productSearchExecute psServiceState a.parameters.toSearchParams)
  else if a.tool == "CompatibilityCheck" then
    .returns (compatibilityExecute psServiceState a.parameters.partNumber
      a.parameters.modelNumber)
  else if a.tool == "InstallationGuide" then
    .returns (installationExecute psServiceState a.parameters.partNumber)
  else if a.tool == "TroubleshootingGuide" then
    .returns (troubleshootingExecute psServiceState a.parameters.symptom
      a.parameters.category)
  else .missing

/-- `PartSelectAgent.generateInstallationResponse` (total: the falsy guard
catches the always-`undefined` `formattedInstructions` field). -/
def generateInstallationResponse (r : ToolResult) : String :=
  let summary := r.data.bind ToolData.summaryProp
  let formatted := r.data.bind ToolData.formattedInstructionsProp
  if jsFalsyS summary || jsFalsyS formatted then
    "I found installation instructions for the requested part, but encountered an issue formatting the response. Please try again or contact support for assistance."
  else
    jsShow summary ++ "\n\n" ++ jsShow formatted ++
    "\n\nNeed additional help? I can also:\n- Check part compatibility with your specific model\n- Help troubleshoot any installation issues\n- Find alternative parts if needed\n\nJust let me know how else I can assist you!"

/-- `PartSelectAgent.generateCompatibilityResponse` (total). -/
def generateCompatibilityResponse (r : ToolResult) : String :=
  let summary := r.data.bind ToolData.summaryProp
  let recommendation := r.data.bind ToolData.recommendationProp
  if jsFalsyS summary || jsFalsyS recommendation then
    "I checked the compatibility for the requested part and model, but encountered an issue formatting the response. Please try again or contact support for assistance."
  else
    jsShow summary ++ "\n\n**Recommendation**: " ++ jsShow recommendation ++
    "\n\nWould you like me to:\n- Provide installation instructions for this part?\n- Search for alternative compatible parts?\n- Help with any other questions about your repair?"

/-- The per-part block of the troubleshooting response. -/
def troubleshootPartsText (parts : List Product) : String :=
  String.join (parts.enum.map fun ie =>
    "**" ++ toString (ie.1 + 1) ++ ". " ++ ie.2.name ++ "** (" ++
    ie.2.partNumber ++ ")\n- Price: $" ++ formatPrice ie.2.priceCents ++
    "\n- Availability: " ++ availabilityStr ie.2.availability ++
    "\n- Installation: " ++ difficultyStr ie.2.installationDifficulty ++
    " difficulty\n\n")

/-- `PartSelectAgent.generateTroubleshootingResponse` (total: the falsy guard
catches the always-`undefined` `diagnosticGuide` field). -/
def generateTroubleshootingResponse (r : ToolResult) : String :=
  let summary := r.data.bind ToolData.summaryProp
  let diagnosticGuide := r.data.bind ToolData.diagnosticGuideProp
  let recommendedParts := r.data.bind ToolData.recommendedPartsProp
  if jsFalsyS summary || jsFalsyS diagnosticGuide then
    "I analyzed the troubleshooting issue, but encountered an issue formatting the response. Please try again or contact support for assistance."
  else
    let base := jsShow summary ++ "\n\n" ++ jsShow diagnosticGuide
    let base :=
      match recommendedParts with
      | some (p :: ps) =>
        base ++ "\n## Recommended Replacement Parts\n\n" ++
          troubleshootPartsText (p :: ps)
      | _ => base
    base ++
    "\nNeed more help? I can:\n- Provide detailed installation instructions for any recommended parts\n- Check compatibility with your specific model number\n- Search for alternative parts if needed\n\nWhat would you like assistance with next?"

/-- The per-product block of the search response. -/
def searchResultsText (products : List Product) : String :=
  String.join (products.enum.map fun ie =>
    "**" ++ toString (ie.1 + 1) ++ ". " ++ ie.2.name ++ "** (" ++
    ie.2.partNumber ++ ")\n- Price: $" ++ formatPrice ie.2.priceCents ++
    " | " ++ availabilityStr ie.2.availability ++
    "\n- Brand: " ++ ie.2.brand ++ " | Category: " ++ categoryStr ie.2.category ++
    "\n- Installation: " ++ difficultyStr ie.2.installationDifficulty ++
    " difficulty (" ++ toString ie.2.estimatedInstallTime ++ " min)\n" ++
    (if 0 < ie.2.compatibleModels.length then
      "- Compatible with: " ++
        String.intercalate ", " (ie.2.compatibleModels.take 3) ++
        (if 3 < ie.2.compatibleModels.length then " and more" else "") ++ "\n"
     else "") ++ "\n")

/-- `PartSelectAgent.generateSearchResponse`.  The unguarded
`products.length` read throws in JS whenever the tool result carries no
`data.products` array (for example after a failed search), hence the
`Except`. -/
def generateSearchResponse (r : ToolResult) : Except String String :=
  match r.data.bind ToolData.productsProp with
  | none => .error "Cannot read properties of undefined (reading length)"
  | some products =>
    let summary := r.data.bind ToolData.summaryProp
    let suggestions := r.data.bind ToolData.suggestionsProp
    if products.length == 0 then
      .ok (jsShow summary ++ "\n\n" ++
        (match suggestions with
         | some sg => String.intercalate "\n- " sg
         | none => "") ++
        "\n\nLet me help you find what you are looking for:\n- Provide your appliance model number for compatible parts\n- Try different search terms or part descriptions  \n- Browse by category (refrigerator or dishwasher)\n- Contact our support team for personalized assistance")
    else
      .ok (jsShow summary ++ "\n\n## Search Results\n\n" ++
        searchResultsText products ++
        "How can I help you next?\n- Get installation instructions for any of these parts\n- Check compatibility with your specific model\n- Get more details about any part\n- Troubleshoot a specific problem\n\nJust let me know what you need!")

/-- `PartSelectAgent.generateGeneralResponse` (static capability overview;
the message argument is accepted and ignored, as in the source). -/
def generateGeneralResponse (_userMessage : String) : String :=
  "Hello! I am your PartSelect AI assistant, specialized in helping with **refrigerator** and **dishwasher** parts and repairs.\n\nHere is how I can help you:\n\n**Find Parts**\n- Search by part number, description, or appliance model\n- Browse by brand (Whirlpool, GE, Frigidaire, etc.)\n- Get pricing and availability information\n\n**Check Compatibility**\n- Verify if a part fits your specific appliance model\n- Find alternative compatible parts\n- Get confidence ratings for part matches\n\n**Installation Guidance**\n- Step-by-step installation instructions\n- Required tools and safety warnings\n- Difficulty ratings and time estimates\n\n**Troubleshoot Problems**\n- Diagnose common refrigerator and dishwasher issues\n- Get diagnostic steps to identify problems\n- Receive part recommendations for repairs\n\n**What would you like help with today?** Just describe your appliance issue, provide a part number, or let me know what you are looking for!"

/-- The shared tail of every switch branch in
`PartSelectAgent.generateFinalResponse`: return the response and clear the
turn flags (`hasExecutedAction := false`, `actionResults := []`). -/
def finishTurn (s : AgentState) (response : String) (products : List Product) :
    Except (String × AgentState) ((String × List Product) × AgentState) :=
  .ok ((response, products),
    { s with hasExecutedAction := false, actionResults := [] })

/-- `PartSelectAgent.generateFinalResponse`.  Note the early `return` when
there is no successful latest observation: it skips the flag reset. -/
def psGenerateFinal (dec : IntentDecision) (userMessage : String)
    (s : AgentState) :
    Except (String × AgentState) ((String × List Product) × AgentState) :=
  let products := extractProducts s.actionResults
  let s := think s ("Generating final response for " ++ intentTypeStr dec ++
    " query with " ++ toString s.actionResults.length ++ " tool results and " ++
    toString products.length ++ " products.")
  match s.actionResults.getLast? with
  | none =>
    .ok ((generateErrorResponse "Unknown error occurred", products), s)
  | some latestResult =>
    if latestResult.success = false then
      .ok ((generateErrorResponse (jsOrStr latestResult.error "Unknown error occurred"),
        products), s)
    else
      let toolUsed :=
        (s.reasoning.find? fun r => r.type == StepType.action).bind fun r => r.tool
      match toolUsed with
      | some t =>
        if t == "InstallationGuide" then
          match latestResult.result with
          | none => .error ("Cannot read properties of undefined (reading data)", s)
          | some tr => finishTurn s (generateInstallationResponse tr) products
        else if t == "CompatibilityCheck" then
          match latestResult.result with
          | none => .error ("Cannot read properties of undefined (reading data)", s)
          | some tr => finishTurn s (generateCompatibilityResponse tr) products
        else if t == "TroubleshootingGuide" then
          match latestResult.result with
          | none => .error ("Cannot read properties of undefined (reading data)", s)
          | some tr => finishTurn s (generateTroubleshootingResponse tr) products
        else if t == "ProductSearch" then
          match latestResult.result with
          | none => .error ("Cannot read properties of undefined (reading data)", s)
          | some tr =>
            match generateSearchResponse tr with
            | .error m => .error (m, s)
            | .ok text => finishTurn s text products
        else finishTurn s (generateGeneralResponse userMessage) products
      | none => finishTurn s (generateGeneralResponse userMessage) products

/-- The concrete `PartSelectAgent` behavior for one turn: rule-based
`generateAction` (the branch taken is `dec`), the four registered tools, the
always-true `shouldFinalize` that records the observation, and
`generateFinalResponse`. -/
def psBehavior (dec : IntentDecision) (userMessage : String) : AgentBehavior :=
  { genAction := fun s => .ok (psGenerateAction dec userMessage s)
    execTool := psExecTool
    shouldFin := fun s obs => (true, { s with actionResults := s.actionResults ++ [obs] })
    genFinal := psGenerateFinal dec userMessage }

/-- One full `PartSelectAgent.processQuery` turn. -/
def psProcessQuery (dec : IntentDecision) (userMessage : String)
    (s : AgentState) : AgentResponse × AgentState :=
  agentProcessQuery (psBehavior dec userMessage) userMessage s

/-- A whole session: the instance state after processing a list of turns,
starting from a freshly constructed agent. -/
def runTurns (turns : List (IntentDecision × String)) : AgentState :=
  turns.foldl (fun s t => (psProcessQuery t.1 t.2 s).2) psInitialState

/-- Number of log entries of a given type. -/
def countSteps (t : StepType) (l : List ReasoningStep) : Nat :=
  (l.filter fun r => r.type == t).length

/-- Search parameters used to compare two weight-table entries: a free-text
query and a brand preference. -/
def scoreProbeParams : ProductSearchParams :=
  { query := some "valve", brand := some "acme" }

/-- A probe product whose only hit for `scoreProbeParams` is the query token
in its name (no brand match, no availability or difficulty bonus). -/
def probeNameProduct : Product :=
  { id := "p1", partNumber := "PROBE1", name := "Water Valve"
    description := "A replacement part.", category := .refrigerator
    brand := "Generic", compatibleModels := [], priceCents := 100
    availability := .outOfStock, installationDifficulty := .hard
    estimatedInstallTime := 1, requiredTools := [], safetyWarnings := [] }

/-- A probe product whose only hit for `scoreProbeParams` is the query token
in its description. -/
def probeDescProduct : Product :=
  { id := "p2", partNumber := "PROBE2", name := "Water Pump"
    description := "A replacement valve assembly.", category := .refrigerator
    brand := "Generic", compatibleModels := [], priceCents := 100
    availability := .outOfStock, installationDifficulty := .hard
    estimatedInstallTime := 1, requiredTools := [], safetyWarnings := [] }

/-- A probe product whose only hit for `scoreProbeParams` is the brand
match. -/
def probeBrandProduct : Product :=
  { id := "p3", partNumber := "PROBE3", name := "Water Pump"
    description := "A replacement part.", category := .refrigerator
    brand := "Acme", compatibleModels := [], priceCents := 100
    availability := .outOfStock, installationDifficulty := .hard
    estimatedInstallTime := 1, requiredTools := [], safetyWarnings := [] }

/-! ## Helper lemmas -/

theorem strStarts_self (l : List Char) : strStarts l l = true := by
  induction l with
  | nil => rfl
  | cons c cs ih => simp [strStarts, ih]

theorem strIncludes_self (s : String) : strIncludes s s = true := by
  unfold strIncludes
  cases h : s.data with
  | nil => rfl
  | cons c cs =>
    unfold strInclAux
    rw [← h, strStarts_self]
    rfl

theorem lowerEq_strIncludes {a b : String} (h : lowerEq a b = true) :
    strIncludes (jsToLower a) (jsToLower b) = true := by
  unfold lowerEq at h
  rw [show jsToLower a = jsToLower b from eq_of_beq h]
  exact strIncludes_self (jsToLower b)

theorem jsOrNat_ten_pos (o : Option Nat) : 1 ≤ jsOrNat o 10 := by
  match o with
  | none => decide
  | some 0 => decide
  | some (n + 1) => exact Nat.succ_le_succ (Nat.zero_le n)

theorem take_ne_nil_of_pos {l : List Product} {n : Nat}
    (hl : l ≠ []) (hn : 1 ≤ n) : l.take n ≠ [] := by
  match l, n with
  | [], _ => exact absurd rfl hl
  | x :: xs, m + 1 => simp [List.take]

/-! ## The claims -/

/-- Claim C2: when the part number resolves to a catalog product and the
model number matches one of its `compatibleModels` up to the case-folding
normalization, `checkCompatibility` reports compatible with confidence 1.0. -/
theorem claim2_exact_model_match (catalog : List Product)
    (partNumber modelNumber : String) (part : Product)
    (h1 : catalog.find? (fun p => lowerEq p.partNumber partNumber) = some part)
    (h2 : part.compatibleModels.any (fun m => lowerEq m modelNumber) = true) :
    (SearchService.checkCompatibility catalog partNumber modelNumber).isCompatible = true ∧
    (SearchService.checkCompatibility catalog partNumber modelNumber).confidence = 1 := by
  unfold SearchService.checkCompatibility
  rw [h1]
  simp [h2]

/-- Witness for C2 on the real catalog: part `WPW10348269` and model
`WDT780SAEM1`. -/
theorem claim2_witness :
    (sampleProducts.find? (fun p => lowerEq p.partNumber "WPW10348269") = some product2 ∧
      product2.compatibleModels.any (fun m => lowerEq m "WDT780SAEM1") = true) ∧
    ((SearchService.checkCompatibility sampleProducts "WPW10348269" "WDT780SAEM1").isCompatible = true ∧
      (SearchService.checkCompatibility sampleProducts "WPW10348269" "WDT780SAEM1").confidence = 1) :=
  ⟨⟨by decide, by decide⟩,
    claim2_exact_model_match sampleProducts "WPW10348269" "WDT780SAEM1" product2
      (by decide) (by decide)⟩

/-- Claim C3: when no catalog product matches the part number,
`checkCompatibility` returns not compatible with confidence 0 (and an empty
alternatives list); being a total function of its inputs, it cannot throw. -/
theorem claim3_part_not_found (catalog : List Product)
    (partNumber modelNumber : String)
    (h : catalog.find? (fun p => lowerEq p.partNumber partNumber) = none) :
    (SearchService.checkCompatibility catalog partNumber modelNumber).isCompatible = false ∧
    (SearchService.checkCompatibility catalog partNumber modelNumber).confidence = 0 ∧
    (SearchService.checkCompatibility catalog partNumber modelNumber).alternativeParts = some [] := by
  unfold SearchService.checkCompatibility
  rw [h]
  exact ⟨rfl, rfl, rfl⟩

/-- Witness for C3 on the real catalog with an unknown part number. -/
theorem claim3_witness :
    (sampleProducts.find? (fun p => lowerEq p.partNumber "ZZ404") = none) ∧
    ((SearchService.checkCompatibility sampleProducts "ZZ404" "WDT780SAEM1").isCompatible = false ∧
      (SearchService.checkCompatibility sampleProducts "ZZ404" "WDT780SAEM1").confidence = 0 ∧
      (SearchService.checkCompatibility sampleProducts "ZZ404" "WDT780SAEM1").alternativeParts = some []) :=
  ⟨by decide, claim3_part_not_found sampleProducts "ZZ404" "WDT780SAEM1" (by decide)⟩

/-- Claim C5: `processQuery` is a total function returning a complete
response record; either the body succeeded and the record carries its
response with `error = none`, or some step raised and the record carries the
templated apology built from the exception message, with the reasoning
accumulated up to the throw.  Tool failures never raise past
`executeAction` (it returns an observation by construction), and no path
re-raises past the orchestrator boundary. -/
theorem claim5_never_throws (B : AgentBehavior) (userMessage : String)
    (s0 : AgentState) :
    (∃ out s1, processQueryCore B userMessage s0 = .ok (out, s1) ∧
      agentProcessQuery B userMessage s0 =
        ({ response := out.1, reasoning := s1.reasoning
           products := some out.2, error := none }, s1)) ∨
    (∃ e s1, processQueryCore B userMessage s0 = .error (e, s1) ∧
      agentProcessQuery B userMessage s0 =
        ({ response := generateErrorResponse e, reasoning := s1.reasoning
           products := none, error := some e }, s1)) := by
  cases h : processQueryCore B userMessage s0 with
  | ok v =>
    obtain ⟨out, s1⟩ := v
    left
    exact ⟨out, s1, rfl, by simp [agentProcessQuery, h]⟩
  | error e =>
    obtain ⟨msg, s1⟩ := e
    right
    exact ⟨msg, s1, rfl, by simp [agentProcessQuery, h]⟩

/-- Claim C10: capability invocations do not modify the service state (the
translation of methods that never assign an instance field), hence invoking
the same capability twice with identical parameters yields identical
structured results. -/
theorem claim10_idempotent (st : ServiceState) (c : CapabilityCall) :
    (invokeCapability st c).2 = st ∧
    (invokeCapability (invokeCapability st c).2 c).1 = (invokeCapability st c).1 := by
  cases c <;> exact ⟨rfl, rfl⟩

/-- `calculateRelevanceScore` decomposes as the sum of the five weight-table
blocks (the additivity behind C9). -/
theorem score_decomposition (q : Product) (params : ProductSearchParams) :
    SearchService.calculateRelevanceScore q params =
      SearchService.partNumberScore q params + SearchService.queryScore q params +
      SearchService.brandScore q params + SearchService.availabilityBonus q +
      SearchService.difficultyBonus q := rfl

theorem availabilityBonus_le (q : Product) : SearchService.availabilityBonus q ≤ 100 := by
  unfold SearchService.availabilityBonus
  cases q.availability <;> simp

theorem difficultyBonus_le (q : Product) : SearchService.difficultyBonus q ≤ 10 := by
  unfold SearchService.difficultyBonus
  cases q.installationDifficulty <;> simp

/-- Claim C1: a part number with exactly one exact (case-folded) catalog
match short-circuits `searchProducts`: the result is that product alone,
with `totalCount = 1`, and its relevance score dominates every other
catalog product for that query. -/
theorem claim1_exact_part_short_circuit (catalog : List Product) (pn : String)
    (p : Product)
    (h : catalog.filter (fun q => lowerEq q.partNumber pn) = [p]) :
    (SearchService.searchProducts catalog { partNumber := some pn }).products = [p] ∧
    (SearchService.searchProducts catalog { partNumber := some pn }).totalCount = 1 ∧
    ∀ q ∈ catalog,
      SearchService.calculateRelevanceScore q { partNumber := some pn } ≤
      SearchService.calculateRelevanceScore p { partNumber := some pn } := by
  have hmemp : p ∈ catalog.filter (fun q => lowerEq q.partNumber pn) := by
    rw [h]; exact List.mem_singleton_self p
  have hp : lowerEq p.partNumber pn = true := (List.mem_filter.mp hmemp).2
  have hsp : SearchService.searchProducts catalog { partNumber := some pn } =
      { products := [p], totalCount := 1, searchTerms := ["part:" ++ pn]
        suggestions := none } := by
    unfold SearchService.searchProducts
    simp only [h]
    norm_num [jsOrNat]
  refine ⟨by rw [hsp], by rw [hsp], ?_⟩
  intro q hq
  have hple : 1500 ≤ SearchService.calculateRelevanceScore p { partNumber := some pn } := by
    rw [score_decomposition]
    have : SearchService.partNumberScore p { partNumber := some pn } = 1500 := by
      unfold SearchService.partNumberScore
      simp [hp, lowerEq_strIncludes hp]
    omega
  by_cases hq2 : lowerEq q.partNumber pn = true
  · have : q ∈ catalog.filter (fun r => lowerEq r.partNumber pn) :=
      List.mem_filter.mpr ⟨hq, hq2⟩
    rw [h] at this
    simp at this
    rw [this]
  · have hqs : SearchService.calculateRelevanceScore q { partNumber := some pn } ≤ 610 := by
      rw [score_decomposition]
      have h1 : SearchService.partNumberScore q { partNumber := some pn } ≤ 500 := by
        unfold SearchService.partNumberScore
        simp [hq2]
        split <;> omega
      have h2 := availabilityBonus_le q
      have h3 := difficultyBonus_le q
      have h4 : SearchService.queryScore q { partNumber := some pn } = 0 := rfl
      have h5 : SearchService.brandScore q { partNumber := some pn } = 0 := rfl
      omega
    omega

/-- Witness for C1 on the real catalog: part number `PS11752778`, whose only
exact match is `product1`. -/
theorem claim1_witness :
    (sampleProducts.filter (fun q => lowerEq q.partNumber "PS11752778") = [product1]) ∧
    ((SearchService.searchProducts sampleProducts { partNumber := some "PS11752778" }).products = [product1] ∧
     (SearchService.searchProducts sampleProducts { partNumber := some "PS11752778" }).totalCount = 1 ∧
     ∀ q ∈ sampleProducts,
       SearchService.calculateRelevanceScore q { partNumber := some "PS11752778" } ≤
       SearchService.calculateRelevanceScore product1 { partNumber := some "PS11752778" }) :=
  ⟨by decide,
    claim1_exact_part_short_circuit sampleProducts "PS11752778" product1 (by decide)⟩

/-- Counterexample to C4 as stated: querying part `5304505524` against model
`WDT780SAEM1XYZ` falls through to the no-match branch, and the returned
alternatives include `product2` even though no compatible model of
`product2` contains (or equals, under any normalization) the queried model —
the alternative filter of the code accepts a substring match in either
direction, so an alternative model that is merely contained in the queried
string qualifies. -/
theorem claim4_counterexample :
    (SearchService.checkCompatibility sampleProducts "5304505524" "WDT780SAEM1XYZ").isCompatible = false ∧
    (SearchService.checkCompatibility sampleProducts "5304505524" "WDT780SAEM1XYZ").alternativeParts =
      some [product2, product7, product8] ∧
    ∀ m ∈ product2.compatibleModels,
      lowerEq m "WDT780SAEM1XYZ" = false ∧
      strIncludes (jsToLower m) (jsToLower "WDT780SAEM1XYZ") = false := by decide

/-- Claim C4 (amended): with the part resolved and no exact model match, a
successful trailing-digit-tolerant family match yields compatible with
confidence 0.8; otherwise the result is not compatible with confidence 0
plus at most three same-category alternatives, each of which matches the
queried model by case-insensitive substring in either direction (not
necessarily by containment of the queried model in its list). -/
theorem claim4_family_match_and_alternatives (catalog : List Product)
    (partNumber modelNumber : String) (part : Product)
    (h1 : catalog.find? (fun p => lowerEq p.partNumber partNumber) = some part)
    (h2 : part.compatibleModels.any (fun m => lowerEq m modelNumber) = false) :
    (part.compatibleModels.any (fun m => SearchService.familyMatch m modelNumber) = true →
      (SearchService.checkCompatibility catalog partNumber modelNumber).isCompatible = true ∧
      (SearchService.checkCompatibility catalog partNumber modelNumber).confidence = 8/10) ∧
    (part.compatibleModels.any (fun m => SearchService.familyMatch m modelNumber) = false →
      (SearchService.checkCompatibility catalog partNumber modelNumber).isCompatible = false ∧
      (SearchService.checkCompatibility catalog partNumber modelNumber).confidence = 0 ∧
      ∃ alts,
        (SearchService.checkCompatibility catalog partNumber modelNumber).alternativeParts = some alts ∧
        alts.length ≤ 3 ∧
        ∀ q ∈ alts, q.category = part.category ∧
          SearchService.altModelMatch q modelNumber = true) := by
  constructor
  · intro hf
    unfold SearchService.checkCompatibility
    rw [h1]
    simp [h2, hf]
  · intro hf
    unfold SearchService.checkCompatibility
    rw [h1]
    simp only [h2, hf, Bool.false_eq_true, if_false]
    refine ⟨trivial, trivial, _, rfl, ?_, ?_⟩
    · exact List.length_take_le 3 _
    · intro q hqmem
      have hsub : q ∈ catalog.filter (fun p =>
          SearchService.altModelMatch p modelNumber && p.category == part.category) :=
        List.take_subset _ _ hqmem
      have hpred := (List.mem_filter.mp hsub).2
      have hand := (Bool.and_eq_true _ _).mp hpred
      exact ⟨by simpa using hand.2, hand.1⟩

/-- Witness for the amended C4 on the real catalog: `WPW10348269` against
`WDT780SAEM2` takes the family-match branch and yields confidence 0.8. -/
theorem claim4_witness :
    (SearchService.checkCompatibility sampleProducts "WPW10348269" "WDT780SAEM2").isCompatible = true ∧
    (SearchService.checkCompatibility sampleProducts "WPW10348269" "WDT780SAEM2").confidence = 8/10 :=
  (claim4_family_match_and_alternatives sampleProducts "WPW10348269" "WDT780SAEM2"
    product2 (by decide) (by decide)).1 (by decide)

theorem takeWhile_digits_append (l1 rest : List Char)
    (h : ∀ c ∈ l1, c.isDigit = true) :
    (l1 ++ '-' :: rest).takeWhile Char.isDigit = l1 := by
  induction l1 with
  | nil => simp [List.takeWhile]
  | cons c cs ih =>
    have hc : c.isDigit = true := h c (List.mem_cons_self c cs)
    simp [List.takeWhile, hc, ih (fun d hd => h d (List.mem_cons_of_mem c hd))]

theorem stripDashDigits_append (s : String) (ds : List Char) (hne : ds ≠ [])
    (hd : ∀ c ∈ ds, c.isDigit = true) :
    stripDashDigits ⟨s.data ++ '-' :: ds⟩ = s := by
  unfold stripDashDigits
  dsimp only
  have hrev : (s.data ++ '-' :: ds).reverse = ds.reverse ++ '-' :: s.data.reverse := by
    simp
  rw [hrev]
  have htw : (ds.reverse ++ '-' :: s.data.reverse).takeWhile Char.isDigit = ds.reverse :=
    takeWhile_digits_append ds.reverse s.data.reverse
      (fun c hc => hd c (List.mem_reverse.mp hc))
  rw [htw]
  have hdrop : (ds.reverse ++ '-' :: s.data.reverse).drop ds.reverse.length =
      '-' :: s.data.reverse := by
    simp
  rw [hdrop]
  have hie : ds.reverse.isEmpty = false := by
    cases h : ds.reverse with
    | nil => exact absurd (List.reverse_eq_nil_iff.mp h) hne
    | cons a as => rfl
  simp [hie]

/-- Counterexample to C8 as stated: the normalizer pair that tolerates the
trailing suffix (`normalizeString` / `normalizeModel` in `SearchService`)
lower-cases rather than upper-cases its input, while the pair that
upper-cases (`standardizePartNumber` / `standardizeModelNumber` in
`PartSelectToolRegistry`) performs no trailing-suffix stripping, so
`MODEL123-4` and `MODEL123` do not standardize to the same form.  No
normalizer in the repository both upper-cases and strips the suffix. -/
theorem claim8_counterexample :
    normalizeString "Ab" = "ab" ∧ ("ab" : String) ≠ "AB" ∧
    normalizeModel "Ab" = "ab" ∧
    standardizeModelNumber "MODEL123-4" = "MODEL1234" ∧
    standardizeModelNumber "MODEL123" = "MODEL123" ∧
    ("MODEL1234" : String) ≠ "MODEL123" := by decide

/-- Claim C8 (amended): `normalizeString` lower-cases (not upper-cases) and
strips everything non-alphanumeric, and `normalizeModel` additionally strips
a single trailing dash-plus-digits suffix, so `MODEL123-4` and `MODEL123`
share a canonical form; the Registry standardizers upper-case and strip
non-alphanumerics, and the part- and model-number standardizers agree. -/
theorem claim8_normalizer_contract :
    (∀ s : String, ∀ c ∈ (normalizeString s).data, (c.isLower || c.isDigit) = true) ∧
    (∀ (s : String) (ds : List Char), ds ≠ [] → (∀ c ∈ ds, c.isDigit = true) →
      normalizeModel ⟨s.data ++ '-' :: ds⟩ = normalizeString s) ∧
    normalizeModel "MODEL123-4" = normalizeModel "MODEL123" ∧
    (∀ s : String, ∀ c ∈ (standardizeModelNumber s).data, (c.isUpper || c.isDigit) = true) ∧
    (∀ s : String, standardizePartNumber s = standardizeModelNumber s) := by
  refine ⟨?_, ?_, by decide, ?_, fun s => rfl⟩
  · intro s c hc
    exact (List.mem_filter.mp hc).2
  · intro s ds hne hd
    unfold normalizeModel
    rw [stripDashDigits_append s ds hne hd]
  · intro s c hc
    exact (List.mem_filter.mp hc).2

/-- Witness for the amended C8: the suffix-tolerance clause applied to
`MODEL123` with suffix digits `4`. -/
theorem claim8_witness :
    normalizeModel "MODEL123-4" = normalizeString "MODEL123" := by
  have h := claim8_normalizer_contract.2.1 "MODEL123" ['4'] (by decide) (by decide)
  have e : ("MODEL123-4" : String) = ⟨"MODEL123".data ++ '-' :: ['4']⟩ := by rfl
  rw [e]
  exact h

theorem mem_insertDesc {score : Product → Nat} {x z : Product} {l : List Product} :
    z ∈ SearchService.insertDesc score x l ↔ z = x ∨ z ∈ l := by
  induction l with
  | nil => simp [SearchService.insertDesc]
  | cons y ys ih =>
    unfold SearchService.insertDesc
    by_cases h : score y ≤ score x
    · rw [if_pos h]
      simp [List.mem_cons]
    · rw [if_neg h]
      simp [List.mem_cons, ih]
      tauto

theorem pairwise_insertDesc (score : Product → Nat) (x : Product) (l : List Product)
    (h : l.Pairwise (fun a b => score b ≤ score a)) :
    (SearchService.insertDesc score x l).Pairwise (fun a b => score b ≤ score a) := by
  induction l with
  | nil => simp [SearchService.insertDesc]
  | cons y ys ih =>
    rw [List.pairwise_cons] at h
    unfold SearchService.insertDesc
    by_cases hc : score y ≤ score x
    · rw [if_pos hc]
      refine List.pairwise_cons.mpr ⟨?_, List.pairwise_cons.mpr h⟩
      intro z hz
      rcases List.mem_cons.mp hz with rfl | hz2
      · exact hc
      · exact le_trans (h.1 z hz2) hc
    · rw [if_neg hc]
      refine List.pairwise_cons.mpr ⟨?_, ih h.2⟩
      intro z hz
      rcases mem_insertDesc.mp hz with rfl | hz2
      · exact le_of_lt (lt_of_not_le hc)
      · exact h.1 z hz2

theorem sortDesc_pairwise (score : Product → Nat) (l : List Product) :
    (SearchService.sortDesc score l).Pairwise (fun a b => score b ≤ score a) := by
  induction l with
  | nil => simp [SearchService.sortDesc]
  | cons x xs ih => exact pairwise_insertDesc score x _ ih

theorem filter_insertDesc (score : Product → Nat) (x : Product) (l : List Product)
    (n : Nat) :
    (SearchService.insertDesc score x l).filter (fun p => score p == n) =
      if score x == n then x :: l.filter (fun p => score p == n)
      else l.filter (fun p => score p == n) := by
  induction l with
  | nil =>
    by_cases hx : score x == n
    · simp [SearchService.insertDesc, List.filter, hx]
    · simp [SearchService.insertDesc, List.filter, hx]
  | cons y ys ih =>
    unfold SearchService.insertDesc
    by_cases hc : score y ≤ score x
    · rw [if_pos hc]
      by_cases hx : score x == n
      · simp [List.filter_cons, hx]
      · simp [List.filter_cons, hx]
    · rw [if_neg hc]
      by_cases hy : score y == n
      · by_cases hx : score x == n
        · exfalso
          have e1 : score y = n := eq_of_beq hy
          have e2 : score x = n := eq_of_beq hx
          exact hc (by rw [e1, e2])
        · simp [List.filter_cons, hy, hx, ih]
      · by_cases hx : score x == n
        · simp [List.filter_cons, hy, hx, ih]
        · simp [List.filter_cons, hy, hx, ih]

/-- Stability of the relevance sort, phrased per score class: the products of
any given score appear in the output exactly in catalog insertion order. -/
theorem sortDesc_filter (score : Product → Nat) (l : List Product) (n : Nat) :
    (SearchService.sortDesc score l).filter (fun p => score p == n) =
      l.filter (fun p => score p == n) := by
  induction l with
  | nil => rfl
  | cons x xs ih =>
    unfold SearchService.sortDesc
    rw [filter_insertDesc]
    by_cases hx : score x == n
    · simp [hx, ih, List.filter_cons]
    · simp [hx, ih, List.filter_cons]

/-- Counterexample to C9 as stated: with query token `valve` and brand
`acme`, a product matched only by brand scores 200 while a product matched
only by a name token scores 100 and one matched only in the description
scores 50 — the brand bonus exceeds both text-match weights, contradicting
the claimed ordering (name token > description token > brand bonus). -/
theorem claim9_counterexample :
    SearchService.calculateRelevanceScore probeNameProduct scoreProbeParams = 100 ∧
    SearchService.calculateRelevanceScore probeDescProduct scoreProbeParams = 50 ∧
    SearchService.calculateRelevanceScore probeBrandProduct scoreProbeParams = 200 ∧
    SearchService.calculateRelevanceScore probeNameProduct scoreProbeParams <
      SearchService.calculateRelevanceScore probeBrandProduct scoreProbeParams := by decide

/-- Claim C9 (amended): relevance scores are additive integers from the
fixed weight table — exact part-number match 1000, part-number substring
500, brand bonus 200, 100 per name token, in-stock 100, 50 per description
token, backordered 25, easy 10, medium 5 (so the brand bonus outweighs a
single name-token match) — the ranked list is sorted by non-increasing
score, and products of equal score keep catalog insertion order (stable
sort). -/
theorem claim9_weight_table_and_stable_sort (products : List Product)
    (params : ProductSearchParams) :
    (SearchService.scoreAndSortResults products params).Pairwise
      (fun a b => SearchService.calculateRelevanceScore b params ≤
        SearchService.calculateRelevanceScore a params) ∧
    (∀ n : Nat, (SearchService.scoreAndSortResults products params).filter
        (fun p => SearchService.calculateRelevanceScore p params == n) =
      products.filter (fun p => SearchService.calculateRelevanceScore p params == n)) ∧
    (∀ p : Product, SearchService.calculateRelevanceScore p params =
      SearchService.partNumberScore p params + SearchService.queryScore p params +
      SearchService.brandScore p params + SearchService.availabilityBonus p +
      SearchService.difficultyBonus p) :=
  ⟨sortDesc_pairwise _ _, fun n => sortDesc_filter _ _ n, fun _ => rfl⟩

/-- Claim C7: a turn appends at most one action entry to its reasoning log —
`shouldFinalize` returns true after the first observation and
`generateAction` short-circuits on the turn flag, so the orchestrator never
chains a second tool call, whatever the classified intent, the prior
instance state, or the tool outcome. -/
theorem claim7_at_most_one_action (dec : IntentDecision) (msg : String) (s : AgentState) :
    countSteps .action (psProcessQuery dec msg s).1.reasoning ≤ 1 := by
  by_cases hf : s.hasExecutedAction = true
  · rcases hl : s.actionResults.getLast? with _ | obs
    · simp [psProcessQuery, agentProcessQuery, processQueryCore, psBehavior, runLoop,
        psGenerateAction, hf, psGenerateFinal, think, finishTurn, countSteps,
        List.filter_append, List.filter_cons, hl]
    · by_cases hs : obs.success = false
      · simp [psProcessQuery, agentProcessQuery, processQueryCore, psBehavior, runLoop,
          psGenerateAction, hf, psGenerateFinal, think, finishTurn, countSteps,
          List.filter_append, List.filter_cons, hl, hs]
      · have hs' : obs.success = true := by simpa using hs
        simp [psProcessQuery, agentProcessQuery, processQueryCore, psBehavior, runLoop,
          psGenerateAction, hf, psGenerateFinal, think, finishTurn, countSteps,
          List.filter_append, List.filter_cons, hl, hs']
  · have hf' : s.hasExecutedAction = false := by simpa using hf
    rcases hl : s.actionResults.getLast? with _ | obs
    · cases dec <;>
        simp [psProcessQuery, agentProcessQuery, processQueryCore, psBehavior, runLoop,
          psGenerateAction, hf', psDecisionAction, executeAction, psExecTool,
          psGenerateFinal, think, act, observe, finishTurn, countSteps, intentTypeStr,
          List.filter_append, List.filter_cons, hl] <;>
        (try (split <;> rename_i heq <;> split at heq <;>
          simp_all [countSteps, List.filter_append, List.filter_cons] <;>
          (obtain ⟨-, h3⟩ := heq; subst h3;
            simp [countSteps, List.filter_append, List.filter_cons])))
    · by_cases hs : obs.success = false
      · cases dec <;>
          simp [psProcessQuery, agentProcessQuery, processQueryCore, psBehavior, runLoop,
            psGenerateAction, hf', psDecisionAction, executeAction, psExecTool,
            psGenerateFinal, think, act, observe, finishTurn, countSteps, intentTypeStr,
            List.filter_append, List.filter_cons, hl, hs] <;>
          (try (split <;> rename_i heq <;> split at heq <;>
            simp_all [countSteps, List.filter_append, List.filter_cons] <;>
            (obtain ⟨-, h3⟩ := heq; subst h3;
              simp [countSteps, List.filter_append, List.filter_cons])))
      · have hs' : obs.success = true := by simpa using hs
        cases dec <;>
          simp [psProcessQuery, agentProcessQuery, processQueryCore, psBehavior, runLoop,
            psGenerateAction, hf', psDecisionAction, executeAction, psExecTool,
            psGenerateFinal, think, act, observe, finishTurn, countSteps, intentTypeStr,
            List.filter_append, List.filter_cons, hl, hs'] <;>
          (try (split <;> rename_i heq <;> split at heq <;>
            simp_all [countSteps, List.filter_append, List.filter_cons] <;>
            (obtain ⟨-, h3⟩ := heq; subst h3;
              simp [countSteps, List.filter_append, List.filter_cons])))

theorem searchFiltered_shape (results : List Product) (terms : List String)
    (params : ProductSearchParams) :
    ∃ rs ts, SearchService.searchFiltered results terms params =
      SearchService.paginateResults rs ts params := by
  unfold SearchService.searchFiltered
  exact ⟨_, _, rfl⟩

theorem paginateResults_ne_nil (rs : List Product) (ts : List String)
    (params : ProductSearchParams) (ho : params.offset = none)
    (h : (SearchService.paginateResults rs ts params).totalCount ≠ 0) :
    (SearchService.paginateResults rs ts params).products ≠ [] := by
  unfold SearchService.paginateResults at h ⊢
  dsimp only at h ⊢
  rw [ho]
  have hne : SearchService.scoreAndSortResults rs params ≠ [] := by
    intro e
    rw [e] at h
    exact h rfl
  have hd : (SearchService.scoreAndSortResults rs params).drop (jsOrNat none 0) =
      SearchService.scoreAndSortResults rs params := List.drop_zero _
  rw [hd]
  exact take_ne_nil_of_pos hne (jsOrNat_ten_pos params.limit)

theorem searchProducts_products_ne_nil (catalog : List Product)
    (params : ProductSearchParams) (ho : params.offset = none)
    (h : (SearchService.searchProducts catalog params).totalCount ≠ 0) :
    (SearchService.searchProducts catalog params).products ≠ [] := by
  unfold SearchService.searchProducts at h ⊢
  cases hpn : params.partNumber with
  | none =>
    simp only [hpn] at h ⊢
    obtain ⟨rs, ts, e⟩ := searchFiltered_shape catalog [] params
    rw [e] at h ⊢
    exact paginateResults_ne_nil rs ts params ho h
  | some pn =>
    simp only [hpn] at h ⊢
    by_cases hex : 0 < (catalog.filter fun p => lowerEq p.partNumber pn).length
    · rw [if_pos hex] at h ⊢
      have hne : catalog.filter (fun p => lowerEq p.partNumber pn) ≠ [] := by
        intro e
        rw [e] at hex
        exact absurd hex (by simp)
      exact take_ne_nil_of_pos hne (jsOrNat_ten_pos params.limit)
    · rw [if_neg hex] at h ⊢
      obtain ⟨rs, ts, e⟩ := searchFiltered_shape
        (catalog.filter fun p => strIncludes (jsToLower p.partNumber) (jsToLower pn))
        ["part:" ++ pn] params
      rw [e] at h ⊢
      exact paginateResults_ne_nil rs ts params ho h

theorem generateSearchSummary_ok (catalog : List Product)
    (params : ProductSearchParams) (ho : params.offset = none) :
    ∃ t, generateSearchSummary (SearchService.searchProducts catalog params) =
      Except.ok t := by
  unfold generateSearchSummary
  by_cases hz : (SearchService.searchProducts catalog params).totalCount == 0
  · rw [if_pos hz]
    rcases (SearchService.searchProducts catalog params).suggestions with _ | sg
    · exact ⟨_, rfl⟩
    · dsimp only
      split <;> exact ⟨_, rfl⟩
  · rw [if_neg hz]
    have hne := searchProducts_products_ne_nil catalog params ho
      (by simpa using hz)
    rcases hh : (SearchService.searchProducts catalog params).products with _ | ⟨p, ps⟩
    · exact absurd hh hne
    · dsimp only [List.head?]
      split <;> exact ⟨_, rfl⟩

theorem productSearchExecute_data (st : ServiceState) (params : ProductSearchParams)
    (ho : params.offset = none) :
    ∃ t, productSearchExecute st params =
      { success := true
        data := some (.search t (SearchService.searchProducts st.products params).products
          (SearchService.searchProducts st.products params).suggestions)
        error := none } := by
  obtain ⟨t, ht⟩ := generateSearchSummary_ok st.products params ho
  exact ⟨t, by simp [productSearchExecute, ht]⟩

theorem generateSearchResponse_psearch_ok (st : ServiceState)
    (params : ProductSearchParams) (ho : params.offset = none) :
    ∃ t, generateSearchResponse (productSearchExecute st params) = Except.ok t := by
  obtain ⟨u, hu⟩ := productSearchExecute_data st params ho
  rw [hu]
  unfold generateSearchResponse
  simp only [ToolData.productsProp, ToolData.summaryProp, ToolData.suggestionsProp,
    Option.some_bind]
  split <;> exact ⟨_, rfl⟩

theorem psTurn_invariant (dec : IntentDecision) (msg : String) (s : AgentState)
    (hf : s.hasExecutedAction = false) (ha : s.actionResults = []) :
    (psProcessQuery dec msg s).2.hasExecutedAction = false ∧
    (psProcessQuery dec msg s).2.actionResults = [] := by
  cases dec with
  | installWithPart pn =>
    simp [psProcessQuery, agentProcessQuery, processQueryCore, psBehavior, runLoop,
      psGenerateAction, psDecisionAction, executeAction, psExecTool, psGenerateFinal,
      think, act, observe, finishTurn, intentTypeStr, hf, ha]
  | installSearch =>
    obtain ⟨t, ht⟩ := generateSearchResponse_psearch_ok psServiceState
      (({ query := some msg, limit := some 3 } : ToolCallArgs).toSearchParams) rfl
    simp [psProcessQuery, agentProcessQuery, processQueryCore, psBehavior, runLoop,
      psGenerateAction, psDecisionAction, executeAction, psExecTool, psGenerateFinal,
      think, act, observe, finishTurn, intentTypeStr, hf, ha, ht]
  | compatBoth pn mn =>
    simp [psProcessQuery, agentProcessQuery, processQueryCore, psBehavior, runLoop,
      psGenerateAction, psDecisionAction, executeAction, psExecTool, psGenerateFinal,
      think, act, observe, finishTurn, intentTypeStr, hf, ha]
  | compatPartOnly pn =>
    obtain ⟨t, ht⟩ := generateSearchResponse_psearch_ok psServiceState
      (({ partNumber := some pn, limit := some 1 } : ToolCallArgs).toSearchParams) rfl
    simp [psProcessQuery, agentProcessQuery, processQueryCore, psBehavior, runLoop,
      psGenerateAction, psDecisionAction, executeAction, psExecTool, psGenerateFinal,
      think, act, observe, finishTurn, intentTypeStr, hf, ha, ht]
  | compatModelOnly =>
    obtain ⟨t, ht⟩ := generateSearchResponse_psearch_ok psServiceState
      (({ query := some msg, limit := some 5 } : ToolCallArgs).toSearchParams) rfl
    simp [psProcessQuery, agentProcessQuery, processQueryCore, psBehavior, runLoop,
      psGenerateAction, psDecisionAction, executeAction, psExecTool, psGenerateFinal,
      think, act, observe, finishTurn, intentTypeStr, hf, ha, ht]
  | compatNeither =>
    obtain ⟨t, ht⟩ := generateSearchResponse_psearch_ok psServiceState
      (({ query := some msg, limit := some 5 } : ToolCallArgs).toSearchParams) rfl
    simp [psProcessQuery, agentProcessQuery, processQueryCore, psBehavior, runLoop,
      psGenerateAction, psDecisionAction, executeAction, psExecTool, psGenerateFinal,
      think, act, observe, finishTurn, intentTypeStr, hf, ha, ht]
  | troubleshootIntent cat =>
    simp [psProcessQuery, agentProcessQuery, processQueryCore, psBehavior, runLoop,
      psGenerateAction, psDecisionAction, executeAction, psExecTool, psGenerateFinal,
      think, act, observe, finishTurn, intentTypeStr, hf, ha]
  | productSearchIntent pn cat b =>
    obtain ⟨t, ht⟩ := generateSearchResponse_psearch_ok psServiceState
      (({ query := some msg, limit := some 5, partNumber := pn, category := cat,
          brand := b } : ToolCallArgs).toSearchParams) rfl
    simp [psProcessQuery, agentProcessQuery, processQueryCore, psBehavior, runLoop,
      psGenerateAction, psDecisionAction, executeAction, psExecTool, psGenerateFinal,
      think, act, observe, finishTurn, intentTypeStr, hf, ha, ht]
  | generalHelp =>
    simp [psProcessQuery, agentProcessQuery, processQueryCore, psBehavior, runLoop,
      psGenerateAction, psDecisionAction, executeAction, psExecTool, psGenerateFinal,
      think, act, observe, finishTurn, intentTypeStr, hf, ha]
  | generalFallback =>
    obtain ⟨t, ht⟩ := generateSearchResponse_psearch_ok psServiceState
      (({ query := some msg, limit := some 5 } : ToolCallArgs).toSearchParams) rfl
    simp [psProcessQuery, agentProcessQuery, processQueryCore, psBehavior, runLoop,
      psGenerateAction, psDecisionAction, executeAction, psExecTool, psGenerateFinal,
      think, act, observe, finishTurn, intentTypeStr, hf, ha, ht]

theorem psTurn_reasoning (dec : IntentDecision) (msg : String) (s : AgentState) :
    (psProcessQuery dec msg s).1.reasoning.head? =
      some { step := 1, type := StepType.thought, content := initialThought msg } ∧
    1 ≤ countSteps .thought (psProcessQuery dec msg s).1.reasoning := by
  by_cases hf : s.hasExecutedAction = true
  · rcases hl : s.actionResults.getLast? with _ | obs
    · simp [psProcessQuery, agentProcessQuery, processQueryCore, psBehavior, runLoop,
        psGenerateAction, hf, psGenerateFinal, think, finishTurn, countSteps,
        List.filter_append, List.filter_cons, hl]
    · by_cases hs : obs.success = false
      · simp [psProcessQuery, agentProcessQuery, processQueryCore, psBehavior, runLoop,
          psGenerateAction, hf, psGenerateFinal, think, finishTurn, countSteps,
          List.filter_append, List.filter_cons, hl, hs]
      · have hs' : obs.success = true := by simpa using hs
        simp [psProcessQuery, agentProcessQuery, processQueryCore, psBehavior, runLoop,
          psGenerateAction, hf, psGenerateFinal, think, finishTurn, countSteps,
          List.filter_append, List.filter_cons, hl, hs']
  · have hf' : s.hasExecutedAction = false := by simpa using hf
    rcases hl : s.actionResults.getLast? with _ | obs
    · cases dec <;>
        simp [psProcessQuery, agentProcessQuery, processQueryCore, psBehavior, runLoop,
          psGenerateAction, hf', psDecisionAction, executeAction, psExecTool,
          psGenerateFinal, think, act, observe, finishTurn, countSteps, intentTypeStr,
          List.filter_append, List.filter_cons, hl] <;>
        (try (split <;> rename_i heq <;> split at heq <;>
          simp_all [countSteps, List.filter_append, List.filter_cons] <;>
          (obtain ⟨-, h3⟩ := heq; subst h3;
            simp [countSteps, List.filter_append, List.filter_cons])))
    · by_cases hs : obs.success = false
      · cases dec <;>
          simp [psProcessQuery, agentProcessQuery, processQueryCore, psBehavior, runLoop,
            psGenerateAction, hf', psDecisionAction, executeAction, psExecTool,
            psGenerateFinal, think, act, observe, finishTurn, countSteps, intentTypeStr,
            List.filter_append, List.filter_cons, hl, hs] <;>
          (try (split <;> rename_i heq <;> split at heq <;>
            simp_all [countSteps, List.filter_append, List.filter_cons] <;>
            (obtain ⟨-, h3⟩ := heq; subst h3;
              simp [countSteps, List.filter_append, List.filter_cons])))
      · have hs' : obs.success = true := by simpa using hs
        cases dec <;>
          simp [psProcessQuery, agentProcessQuery, processQueryCore, psBehavior, runLoop,
            psGenerateAction, hf', psDecisionAction, executeAction, psExecTool,
            psGenerateFinal, think, act, observe, finishTurn, countSteps, intentTypeStr,
            List.filter_append, List.filter_cons, hl, hs'] <;>
          (try (split <;> rename_i heq <;> split at heq <;>
            simp_all [countSteps, List.filter_append, List.filter_cons] <;>
            (obtain ⟨-, h3⟩ := heq; subst h3;
              simp [countSteps, List.filter_append, List.filter_cons])))

/-- Claim C6: starting from a fresh agent, the turn-scoped state is clear at
the start of every turn — `hasExecutedAction` is false in the state every
session history reaches (so the flag is clear when the next turn begins), and
the turn rebuilds its reasoning log from empty: the log of every processed
turn begins with the step-numbered-1 initial thought (possible only when the
log was empty when the turn started) and ends with at least one thought,
greeting-only turns included. -/
theorem claim6_turn_scoped_reset (turns : List (IntentDecision × String))
    (dec : IntentDecision) (msg : String) :
    (runTurns turns).hasExecutedAction = false ∧
    (psProcessQuery dec msg (runTurns turns)).1.reasoning.head? =
      some { step := 1, type := StepType.thought, content := initialThought msg } ∧
    1 ≤ countSteps .thought (psProcessQuery dec msg (runTurns turns)).1.reasoning := by
  have gen : ∀ (ts : List (IntentDecision × String)) (s : AgentState),
      s.hasExecutedAction = false → s.actionResults = [] →
      (ts.foldl (fun s t => (psProcessQuery t.1 t.2 s).2) s).hasExecutedAction = false ∧
      (ts.foldl (fun s t => (psProcessQuery t.1 t.2 s).2) s).actionResults = [] := by
    intro ts
    induction ts with
    | nil => intro s h1 h2; exact ⟨h1, h2⟩
    | cons t ts ih =>
      intro s h1 h2
      have h := psTurn_invariant t.1 t.2 s h1 h2
      exact ih _ h.1 h.2
  have hrun := gen turns psInitialState rfl rfl
  have hr := psTurn_reasoning dec msg (runTurns turns)
  exact ⟨by simpa [runTurns] using hrun.1, hr.1, hr.2⟩
